import Mathlib

/-!
Shallow embedding of the retirement-projection engine
(src/calculations.py of conradstorz/Retire_your_way) over exact
rationals, together with theorems settling the specification claims.

Money amounts and rates are modelled as rationals (the Python code uses
floats; all claim-relevant arithmetic is exact).  Python dicts keyed by
account name are modelled as insertion-ordered association lists with
last-write-wins overwrite-in-place semantics, matching CPython dicts.
-/

namespace Retire

/-- Python dict assignment d[k] = v: overwrite in place if the key is
present (keeping its position), else append at the end. -/
def dictSet (d : List (String × ℚ)) (k : String) (v : ℚ) : List (String × ℚ) :=
  match d with
  | [] => [(k, v)]
  | (k0, v0) :: rest => if k0 == k then (k, v) :: rest else (k0, v0) :: dictSet rest k v

/-- Python dict read d[k] for a key known to be present (all engine reads
are on keys initialized from the account list; 0 is returned in the
unreachable missing-key case). -/
def dictGet (d : List (String × ℚ)) (k : String) : ℚ :=
  match d with
  | [] => 0
  | (k0, v0) :: rest => if k0 == k then v0 else dictGet rest k

/-- Python d.get(k, dflt). -/
def dictGetD (d : List (String × ℚ)) (k : String) (dflt : ℚ) : ℚ :=
  match d with
  | [] => dflt
  | (k0, v0) :: rest => if k0 == k then v0 else dictGetD rest k dflt

/-- Python membership test k in d. -/
def dictMem (d : List (String × ℚ)) (k : String) : Bool :=
  match d with
  | [] => false
  | (k0, _) :: rest => k0 == k || dictMem rest k

/-- Python sum(d.values()). -/
def dictValuesSum (d : List (String × ℚ)) : ℚ :=
  (d.map Prod.snd).sum

/-- AccountBucket dataclass: one investment account. -/
structure AccountBucket where
  name : String
  balance : ℚ
  annual_return : ℚ
  priority : Int
  account_type : String
  planned_contribution : ℚ
  continue_post_retirement : Bool := false
deriving Repr, DecidableEq

/-- ExpenseCategory dataclass: one spending category, CORE or FLEX. -/
structure ExpenseCategory where
  name : String
  annual_amount : ℚ
  category_type : String
deriving Repr, DecidableEq

/-- OneTimeEvent dataclass: a one-time portfolio transaction in a specific
account (positive amount = withdrawal, negative = addition). -/
structure OneTimeEvent where
  year : Int
  description : String
  amount : ℚ
  account_name : String
deriving Repr, DecidableEq

/-- The value kinds of CONTRIBUTION_STOP_RULES: the Python dict maps each
account type to the string constant work_end_age, an integer age, or None. -/
inductive StopRule where
  | workEndAge : StopRule
  | atAge : Int → StopRule
deriving Repr, DecidableEq

/-- CONTRIBUTION_STOP_RULES table; a missing key behaves like None
(Python dict .get). -/
def CONTRIBUTION_STOP_RULES (account_type : String) : Option StopRule :=
  if account_type == "401k" then some .workEndAge
  else if account_type == "traditional_ira" then some (.atAge 73)
  else if account_type == "roth_ira" then none
  else if account_type == "taxable_brokerage" then none
  else none

/-- RMD_LIFETIME_TABLE: IRS Uniform Lifetime divisors keyed by age. -/
def RMD_LIFETIME_TABLE : List (Int × ℚ) :=
  [(70, 274/10), (71, 265/10), (72, 256/10),
   (73, 265/10), (74, 255/10), (75, 246/10), (76, 237/10), (77, 229/10),
   (78, 22), (79, 211/10),
   (80, 202/10), (81, 194/10), (82, 185/10), (83, 177/10), (84, 168/10),
   (85, 16), (86, 152/10),
   (87, 144/10), (88, 137/10), (89, 129/10), (90, 122/10), (91, 115/10),
   (92, 108/10), (93, 101/10),
   (94, 95/10), (95, 89/10), (96, 84/10), (97, 78/10), (98, 73/10),
   (99, 68/10), (100, 64/10),
   (101, 6), (102, 56/10), (103, 52/10), (104, 49/10), (105, 46/10),
   (106, 43/10), (107, 41/10),
   (108, 39/10), (109, 37/10), (110, 35/10), (111, 34/10), (112, 33/10),
   (113, 31/10), (114, 3),
   (115, 29/10), (116, 28/10), (117, 27/10), (118, 25/10), (119, 23/10),
   (120, 2)]

/-- RMD_LIFETIME_TABLE.get(age, 2.0). -/
def rmdDivisor (age : Int) : ℚ :=
  (((RMD_LIFETIME_TABLE.find? (fun p => p.1 == age)).map Prod.snd).getD 2)

/-- RMD_ACCOUNT_TYPES: account types subject to RMDs. -/
def RMD_ACCOUNT_TYPES (account_type : String) : Bool :=
  account_type == "401k" || account_type == "traditional_ira"

/-- get_rmd_starting_age: RMD starting age from birth year
(SECURE Act / SECURE 2.0 rules). -/
def get_rmd_starting_age (birth_year : Int) : Int :=
  if birth_year < 1949 then 70
  else if birth_year ≤ 1950 then 72
  else if birth_year ≤ 1959 then 73
  else 75

/-- calculate_rmd_amount: 0 before the starting age, else balance divided
by the table divisor for that age (default 2.0 for ages not in the table). -/
def calculate_rmd_amount (account_balance : ℚ) (age rmd_starting_age : Int) : ℚ :=
  if age < rmd_starting_age then 0
  else account_balance / rmdDivisor age

/-- can_contribute: contribution eligibility of an account type at an age. -/
def can_contribute (account_type : String) (age work_end_age : Int)
    (continue_post_retirement : Bool := false) : Bool :=
  match CONTRIBUTION_STOP_RULES account_type with
  | none => true
  | some .workEndAge => age < work_end_age
  | some (.atAge rule) =>
    if continue_post_retirement then age < rule
    else age < work_end_age && age < rule

/-- Scalar parameters of run_comprehensive_projection (defaults in the
Python signature: ss_cola 0.025, max_flex_reduction 0.50, inflation_rate
0.03, max_age 110). -/
structure ProjParams where
  current_age : Int
  target_age : Int
  current_work_income : ℚ
  work_end_age : Int
  ss_start_age : Int
  ss_monthly_benefit : ℚ
  ss_cola : ℚ := 1/40
  max_flex_reduction : ℚ := 1/2
  inflation_rate : ℚ := 3/100
  max_age : Int := 110
deriving Repr, DecidableEq

/-- The base calendar year hard-coded as current_year = 2026. -/
def baseYear : Int := 2026

/-- Work income in a simulation year: grows at the inflation rate while
age is below work_end_age, else 0. -/
def workIncomeAt (p : ProjParams) (year_offset : ℕ) : ℚ :=
  if p.current_age + year_offset < p.work_end_age then
    p.current_work_income * (1 + p.inflation_rate) ^ year_offset
  else 0

/-- Social Security income in a simulation year: starts at ss_start_age
with annual COLA. -/
def ssIncomeAt (p : ProjParams) (year_offset : ℕ) : ℚ :=
  if p.current_age + year_offset ≥ p.ss_start_age then
    p.ss_monthly_benefit * 12 *
      (1 + p.ss_cola) ^ (p.current_age + year_offset - p.ss_start_age).toNat
  else 0

/-- Base-year CORE expense total: sum of annual_amount over CORE
categories. -/
def coreExpensesBase (expense_categories : List ExpenseCategory) : ℚ :=
  ((expense_categories.filter (fun e => e.category_type == "CORE")).map
    (fun e => e.annual_amount)).sum

/-- Base-year FLEX expense total: sum of annual_amount over FLEX
categories. -/
def flexExpensesBase (expense_categories : List ExpenseCategory) : ℚ :=
  ((expense_categories.filter (fun e => e.category_type == "FLEX")).map
    (fun e => e.annual_amount)).sum

/-- Total income (work plus Social Security) in a simulation year. -/
def totalIncomeAt (p : ProjParams) (year_offset : ℕ) : ℚ :=
  workIncomeAt p year_offset + ssIncomeAt p year_offset

/-- The planned-contribution dict for a year: each account maps to its
planned contribution if eligible this year, else 0. -/
def plannedContribs (accounts : List AccountBucket) (age work_end_age : Int) :
    List (String × ℚ) :=
  accounts.foldl
    (fun d acc =>
      dictSet d acc.name
        (if can_contribute acc.account_type age work_end_age acc.continue_post_retirement
         then acc.planned_contribution else 0))
    []

/-- Outcome of the income-based contribution-funding waterfall
(the three-branch conditional in run_comprehensive_projection). -/
structure FundingResult where
  flex_expenses_actual : ℚ
  flex_multiplier : ℚ
  contributions : List (String × ℚ)
  total_contributions : ℚ
  contribution_shortfall : ℚ
deriving Repr, DecidableEq

/-- The funding waterfall: fund planned contributions from income,
reducing FLEX spending (down to its floor) before leaving a shortfall. -/
def fundContributions (total_income core_expenses flex_expenses_full : ℚ)
    (planned : List (String × ℚ)) (total_planned max_flex_reduction : ℚ) :
    FundingResult :=
  let available_for_all := total_income - core_expenses
  if available_for_all ≥ flex_expenses_full + total_planned then
    { flex_expenses_actual := flex_expenses_full
      flex_multiplier := 1
      contributions := planned
      total_contributions := total_planned
      contribution_shortfall := 0 }
  else if available_for_all ≥ total_planned then
    let money_for_flex := available_for_all - total_planned
    let flex_expenses_actual :=
      max money_for_flex (flex_expenses_full * (1 - max_flex_reduction))
    let flex_multiplier :=
      if flex_expenses_full > 0 then flex_expenses_actual / flex_expenses_full else 1
    if money_for_flex ≥ flex_expenses_full * (1 - max_flex_reduction) then
      { flex_expenses_actual := flex_expenses_actual
        flex_multiplier := flex_multiplier
        contributions := planned
        total_contributions := total_planned
        contribution_shortfall := 0 }
    else
      let money_after_min_flex :=
        available_for_all - flex_expenses_full * (1 - max_flex_reduction)
      if total_planned > 0 then
        { flex_expenses_actual := flex_expenses_full * (1 - max_flex_reduction)
          flex_multiplier := 1 - max_flex_reduction
          contributions :=
            planned.map (fun kv => (kv.1, money_after_min_flex * (kv.2 / total_planned)))
          total_contributions := money_after_min_flex
          contribution_shortfall := total_planned - money_after_min_flex }
      else
        { flex_expenses_actual := flex_expenses_full * (1 - max_flex_reduction)
          flex_multiplier := 1 - max_flex_reduction
          contributions := planned.map (fun kv => (kv.1, 0))
          total_contributions := 0
          contribution_shortfall := 0 }
  else
    let flex_multiplier := if flex_expenses_full > 0 then 1 - max_flex_reduction else 1
    let money_after_min_flex :=
      available_for_all - flex_expenses_full * (1 - max_flex_reduction)
    if money_after_min_flex > 0 ∧ total_planned > 0 then
      { flex_expenses_actual := flex_expenses_full * (1 - max_flex_reduction)
        flex_multiplier := flex_multiplier
        contributions :=
          planned.map (fun kv => (kv.1, money_after_min_flex * (kv.2 / total_planned)))
        total_contributions := money_after_min_flex
        contribution_shortfall := total_planned - money_after_min_flex }
    else
      { flex_expenses_actual := flex_expenses_full * (1 - max_flex_reduction)
        flex_multiplier := flex_multiplier
        contributions := planned.map (fun kv => (kv.1, 0))
        total_contributions := 0
        contribution_shortfall := total_planned }

/-- State threaded through the portfolio-funded contribution top-up loops. -/
structure TopupState where
  balances : List (String × ℚ)
  contribution_withdrawals : List (String × ℚ)
  contributions : List (String × ℚ)
  total_contributions : ℚ
  remaining_shortfall : ℚ
deriving Repr, DecidableEq

/-- Inner top-up loop: withdraw from source accounts (in priority order,
skipping the target account) to fund one account's contribution shortfall. -/
def topupFromSources (acc_name : String) (sources : List AccountBucket)
    (st : TopupState) (this_account_shortfall : ℚ) : TopupState :=
  match sources with
  | [] => st
  | src :: rest =>
    if this_account_shortfall ≤ 0 then st
    else if src.name == acc_name then
      topupFromSources acc_name rest st this_account_shortfall
    else
      let available_in_source := dictGet st.balances src.name
      let withdrawal_amount := min this_account_shortfall available_in_source
      if withdrawal_amount > 0 then
        let st1 : TopupState :=
          { balances := dictSet st.balances src.name
              (dictGet st.balances src.name - withdrawal_amount)
            contribution_withdrawals := dictSet st.contribution_withdrawals src.name
              (dictGet st.contribution_withdrawals src.name + withdrawal_amount)
            contributions := dictSet st.contributions acc_name
              (dictGetD st.contributions acc_name 0 + withdrawal_amount)
            total_contributions := st.total_contributions + withdrawal_amount
            remaining_shortfall := st.remaining_shortfall - withdrawal_amount }
        topupFromSources acc_name rest st1 (this_account_shortfall - withdrawal_amount)
      else topupFromSources acc_name rest st this_account_shortfall

/-- Outer top-up loop over the planned-contribution dict. -/
def topupLoop (planned : List (String × ℚ)) (sorted_accounts : List AccountBucket)
    (st : TopupState) : TopupState :=
  match planned with
  | [] => st
  | (acc_name, planned_amt) :: rest =>
    if planned_amt == 0 then topupLoop rest sorted_accounts st
    else
      let already_funded := dictGetD st.contributions acc_name 0
      let this_account_shortfall := planned_amt - already_funded
      if this_account_shortfall ≤ 0 then topupLoop rest sorted_accounts st
      else topupLoop rest sorted_accounts
        (topupFromSources acc_name sorted_accounts st this_account_shortfall)

/-- Apply the contributions dict to the balances. -/
def applyContributions (contributions balances : List (String × ℚ)) :
    List (String × ℚ) :=
  contributions.foldl (fun b kv => dictSet b kv.1 (dictGet b kv.1 + kv.2)) balances

/-- Outcome of the RMD pass over all accounts. -/
structure RMDResult where
  balances : List (String × ℚ)
  rmds : List (String × ℚ)
  total_rmds : ℚ
deriving Repr, DecidableEq

/-- RMD pass: mandatory withdrawals from RMD-subject accounts, capped at
the account balance. -/
def applyRMDs (accounts : List AccountBucket) (age rmd_starting_age : Int)
    (balances0 : List (String × ℚ)) : RMDResult :=
  accounts.foldl
    (fun r acc =>
      if RMD_ACCOUNT_TYPES acc.account_type then
        let rmd_amount :=
          calculate_rmd_amount (dictGet r.balances acc.name) age rmd_starting_age
        let actual_rmd := min rmd_amount (dictGet r.balances acc.name)
        { balances := dictSet r.balances acc.name
            (dictGet r.balances acc.name - actual_rmd)
          rmds := dictSet r.rmds acc.name actual_rmd
          total_rmds := r.total_rmds + actual_rmd }
      else { r with rmds := dictSet r.rmds acc.name 0 })
    { balances := balances0, rmds := [], total_rmds := 0 }

/-- Outcome of the deficit-withdrawal pass. -/
structure WithdrawalResult where
  balances : List (String × ℚ)
  withdrawals : List (String × ℚ)
  total_withdrawals : ℚ
  deficit_to_cover : ℚ
deriving Repr, DecidableEq

/-- Deficit-coverage withdrawals: walk accounts in priority order,
withdrawing min(remaining deficit, balance) from each. -/
def applyDeficitWithdrawals (sorted_accounts : List AccountBucket)
    (balances0 : List (String × ℚ)) (deficit0 : ℚ) : WithdrawalResult :=
  sorted_accounts.foldl
    (fun r acc =>
      if r.deficit_to_cover ≤ 0 then
        { r with withdrawals := dictSet r.withdrawals acc.name 0 }
      else
        let available := dictGet r.balances acc.name
        let withdrawal := min r.deficit_to_cover available
        { balances := dictSet r.balances acc.name (available - withdrawal)
          withdrawals := dictSet r.withdrawals acc.name withdrawal
          total_withdrawals := r.total_withdrawals + withdrawal
          deficit_to_cover := r.deficit_to_cover - withdrawal })
    { balances := balances0, withdrawals := [], total_withdrawals := 0,
      deficit_to_cover := deficit0 }

/-- Investment-return pass: each balance grows by its account's fixed
annual return. -/
def applyReturns (accounts : List AccountBucket)
    (balances0 : List (String × ℚ)) : List (String × ℚ) × List (String × ℚ) :=
  accounts.foldl
    (fun pr acc =>
      let annual_return := dictGet pr.1 acc.name * acc.annual_return
      (dictSet pr.1 acc.name (dictGet pr.1 acc.name + annual_return),
       dictSet pr.2 acc.name annual_return))
    (balances0, [])

/-- One-time events: the first event keyed to this calendar year is
recorded, and applied when its account exists in the balance map. -/
def applyEvent (events : List OneTimeEvent) (year : Int)
    (balances : List (String × ℚ)) : (ℚ × String × String) × List (String × ℚ) :=
  match events.find? (fun e => e.year == year) with
  | none => ((0, "", ""), balances)
  | some e =>
    ((e.amount, e.description, e.account_name),
     if dictMem balances e.account_name then
       dictSet balances e.account_name (dictGet balances e.account_name - e.amount)
     else balances)

/-- Per-account detail columns of a projection row. -/
structure AccountCols where
  balance : ℚ
  contribution : ℚ
  withdrawal : ℚ
  contribution_withdrawal : ℚ
  rmd : ℚ
  investment_return : ℚ
deriving Repr, DecidableEq

/-- One row of the projection output table. -/
structure YearRow where
  year : Int
  age : Int
  work_income : ℚ
  ss_income : ℚ
  total_income : ℚ
  core_expenses : ℚ
  flex_expenses_full : ℚ
  flex_multiplier : ℚ
  flex_expenses_actual : ℚ
  event_amount : ℚ
  event_description : String
  event_account : String
  total_expenses : ℚ
  surplus_deficit : ℚ
  total_contributions : ℚ
  contribution_shortfall : ℚ
  total_rmds : ℚ
  total_withdrawals : ℚ
  total_portfolio : ℚ
  portfolio_depleted : Bool
  per_account : List (String × AccountCols)
deriving Repr, DecidableEq

/-- A placeholder row used only as the default of list lookups. -/
def dummyRow : YearRow :=
  { year := 0, age := 0, work_income := 0, ss_income := 0, total_income := 0
    core_expenses := 0, flex_expenses_full := 0, flex_multiplier := 0
    flex_expenses_actual := 0, event_amount := 0, event_description := ""
    event_account := "", total_expenses := 0, surplus_deficit := 0
    total_contributions := 0, contribution_shortfall := 0, total_rmds := 0
    total_withdrawals := 0, total_portfolio := 0, portfolio_depleted := false
    per_account := [] }

/-- Mutable simulation state: the input record lists together with the
internal balance map (the only component the loop body ever assigns to). -/
structure ProjState where
  accounts : List AccountBucket
  expense_categories : List ExpenseCategory
  events : List OneTimeEvent
  account_balances : List (String × ℚ)
deriving Repr, DecidableEq

/-- Stable insertion into a priority-sorted list (earlier elements stay
ahead of later ones with equal priority). -/
def insertByPriority (a : AccountBucket) : List AccountBucket → List AccountBucket
  | [] => [a]
  | b :: rest =>
    if b.priority < a.priority then b :: insertByPriority a rest else a :: b :: rest

/-- Python sorted(accounts, key=priority): a stable sort by priority. -/
def sortByPriority (accounts : List AccountBucket) : List AccountBucket :=
  accounts.foldr insertByPriority []

/-- One iteration of the projection loop: computes the row for the given
year offset and the state for the next year. -/
def projYear (p : ProjParams) (rmd_starting_age : Int)
    (core_expenses_base flex_expenses_base : ℚ)
    (sorted_accounts : List AccountBucket) (st : ProjState)
    (year_offset : ℕ) : YearRow × ProjState :=
  let age : Int := p.current_age + year_offset
  let year : Int := baseYear + year_offset
  let work_income := workIncomeAt p year_offset
  let ss_income := ssIncomeAt p year_offset
  let total_income := work_income + ss_income
  let inflation_multiplier := (1 + p.inflation_rate) ^ year_offset
  let core_expenses := core_expenses_base * inflation_multiplier
  let flex_expenses_full := flex_expenses_base * inflation_multiplier
  let planned := plannedContribs st.accounts age p.work_end_age
  let total_planned := dictValuesSum planned
  let fr := fundContributions total_income core_expenses flex_expenses_full
    planned total_planned p.max_flex_reduction
  let cw0 := st.accounts.foldl (fun d acc => dictSet d acc.name 0) []
  let ts0 : TopupState :=
    { balances := st.account_balances, contribution_withdrawals := cw0
      contributions := fr.contributions
      total_contributions := fr.total_contributions
      remaining_shortfall := fr.contribution_shortfall }
  let ts :=
    if fr.contribution_shortfall > 0 ∧ total_planned > 0 then
      topupLoop planned sorted_accounts ts0
    else ts0
  let contribution_shortfall :=
    if fr.contribution_shortfall > 0 ∧ total_planned > 0 then
      ts.remaining_shortfall
    else fr.contribution_shortfall
  let balances1 := applyContributions ts.contributions ts.balances
  let rr := applyRMDs st.accounts age rmd_starting_age balances1
  let total_expenses_actual :=
    core_expenses + fr.flex_expenses_actual + ts.total_contributions
  let surplus_deficit := total_income + rr.total_rmds - total_expenses_actual
  let wr :=
    if surplus_deficit < 0 then
      applyDeficitWithdrawals sorted_accounts rr.balances |surplus_deficit|
    else
      { balances := rr.balances
        withdrawals := st.accounts.foldl (fun d acc => dictSet d acc.name 0) []
        total_withdrawals := 0, deficit_to_cover := 0 }
  let ar := applyReturns st.accounts wr.balances
  let balances2 := ar.1
  let returns := ar.2
  let ev := applyEvent st.events year balances2
  let event_amount := ev.1.1
  let event_description := ev.1.2.1
  let event_account := ev.1.2.2
  let balances3 := ev.2
  let total_portfolio := dictValuesSum balances3
  let portfolio_depleted : Bool := total_portfolio ≤ 0
  let row : YearRow :=
    { year := year, age := age, work_income := work_income
      ss_income := ss_income, total_income := total_income
      core_expenses := core_expenses, flex_expenses_full := flex_expenses_full
      flex_multiplier := fr.flex_multiplier
      flex_expenses_actual := fr.flex_expenses_actual
      event_amount := event_amount, event_description := event_description
      event_account := event_account, total_expenses := total_expenses_actual
      surplus_deficit := surplus_deficit
      total_contributions := ts.total_contributions
      contribution_shortfall := contribution_shortfall
      total_rmds := rr.total_rmds, total_withdrawals := wr.total_withdrawals
      total_portfolio := total_portfolio, portfolio_depleted := portfolio_depleted
      per_account := st.accounts.map (fun acc =>
        (acc.name,
          { balance := dictGet balances3 acc.name
            contribution := dictGetD ts.contributions acc.name 0
            withdrawal := dictGetD wr.withdrawals acc.name 0
            contribution_withdrawal := dictGetD ts.contribution_withdrawals acc.name 0
            rmd := dictGetD rr.rmds acc.name 0
            investment_return := dictGetD returns acc.name 0 })) }
  (row, { st with account_balances := balances3 })

/-- The projection loop: one row per year, stopping early (right after
recording the row) when the portfolio is depleted. -/
def projLoop (p : ProjParams) (rmd_starting_age : Int)
    (core_expenses_base flex_expenses_base : ℚ)
    (sorted_accounts : List AccountBucket) (st : ProjState)
    (year_offset : ℕ) : (fuel : ℕ) → List YearRow × ProjState
  | 0 => ([], st)
  | fuel + 1 =>
    let r1 := projYear p rmd_starting_age core_expenses_base
      flex_expenses_base sorted_accounts st year_offset
    if r1.1.portfolio_depleted then ([r1.1], r1.2)
    else
      let r2 := projLoop p rmd_starting_age core_expenses_base
        flex_expenses_base sorted_accounts r1.2 (year_offset + 1) fuel
      (r1.1 :: r2.1, r2.2)

/-- run_comprehensive_projection, returning the rows together with the
final mutable state (whose accounts/expenses/events components the loop
never assigns to). -/
def run_comprehensive_projection_full (p : ProjParams)
    (accounts : List AccountBucket) (expense_categories : List ExpenseCategory)
    (events : List OneTimeEvent) : List YearRow × ProjState :=
  let projection_years := (p.max_age - p.current_age + 1).toNat
  let birth_year := baseYear - p.current_age
  let rmd_starting_age := get_rmd_starting_age birth_year
  let sorted_accounts := sortByPriority accounts
  let st0 : ProjState :=
    { accounts := accounts, expense_categories := expense_categories
      events := events
      account_balances := accounts.foldl (fun d acc => dictSet d acc.name acc.balance) [] }
  projLoop p rmd_starting_age (coreExpensesBase expense_categories)
    (flexExpensesBase expense_categories) sorted_accounts st0 0 projection_years

/-- run_comprehensive_projection: the emitted table, one row per year. -/
def run_comprehensive_projection (p : ProjParams)
    (accounts : List AccountBucket) (expense_categories : List ExpenseCategory)
    (events : List OneTimeEvent) : List YearRow :=
  (run_comprehensive_projection_full p accounts expense_categories events).1

/-- calculate_conservative_retirement_balance: project current balances
to work_end_age at a fixed 5.5 percent real return, adding eligible
planned contributions each year, ignoring living expenses. -/
def calculate_conservative_retirement_balance (accounts : List AccountBucket)
    (current_age work_end_age : Int) : ℚ :=
  let REAL_RETURN : ℚ := 11/200
  let balances0 := accounts.foldl (fun d acc => dictSet d acc.name acc.balance) []
  let final := (List.range (work_end_age - current_age).toNat).foldl
    (fun balances (year_offset : ℕ) =>
      let age := current_age + (year_offset : Int)
      let balances1 := accounts.foldl
        (fun b acc =>
          if can_contribute acc.account_type age work_end_age
              acc.continue_post_retirement then
            dictSet b acc.name (dictGet b acc.name + acc.planned_contribution)
          else b)
        balances
      accounts.foldl
        (fun b acc => dictSet b acc.name (dictGet b acc.name * (1 + REAL_RETURN)))
        balances1)
    balances0
  dictValuesSum final

/-- The warning messages of analyze_retirement_plan, as structured data
carrying the values interpolated into the Python f-strings. -/
inductive PlanWarning where
  | noProjectionData : PlanWarning
  | depletion (run_out_age years_short : Int) : PlanWarning
  | flexReduction (lifetime_avg_multiplier : ℚ) (num_years_reduced : ℕ)
      (first_reduction_age last_reduction_age : Int) (min_multiplier : ℚ) : PlanWarning
  | contributionShortfall (first_shortfall_year first_shortfall_age : Int)
      (monthly_shortfall total_shortfall : ℚ) (num_years : ℕ) : PlanWarning
  | earlyWithdrawal (total_working_withdrawals : ℚ) (num_working_years : ℕ) : PlanWarning
deriving Repr, DecidableEq

/-- The summary dictionary returned by analyze_retirement_plan. -/
structure AnalysisSummary where
  run_out_age : Option Int
  run_out_year : Option Int
  cushion_years : Int
  status : String
  warnings : List PlanWarning
  final_balance : ℚ
  sustainable_withdrawal_annual : Option ℚ
  sustainable_withdrawal_monthly : Option ℚ
deriving Repr, DecidableEq

/-- Minimum of a list of rationals (pandas Series.min on nonempty data). -/
def listMin (l : List ℚ) : ℚ :=
  match l with
  | [] => 0
  | x :: xs => xs.foldl min x

/-- The excessive-flex-reduction warning block of analyze_retirement_plan. -/
def flexWarningBlock (projection : List YearRow) (status : String) :
    List PlanWarning :=
  let avg_flex_multiplier :=
    ((projection.map (fun r => r.flex_multiplier)).sum) / (projection.length : ℚ)
  if avg_flex_multiplier < 4/5 then
    let reduced_years := projection.filter (fun r => r.flex_multiplier < 1)
    if reduced_years.length > 0 then
      let avg_portfolio_during_reductions :=
        ((reduced_years.map (fun r => r.total_portfolio)).sum) /
          (reduced_years.length : ℚ)
      let initial_portfolio := (projection.headD dummyRow).total_portfolio
      let portfolio_growth_factor :=
        if initial_portfolio > 0 then
          avg_portfolio_during_reductions / initial_portfolio
        else 0
      if portfolio_growth_factor < 4/5 ∨ status = "AT RISK" then
        let min_multiplier := listMin (reduced_years.map (fun r => r.flex_multiplier))
        let total_planned_flex := (projection.map (fun r => r.flex_expenses_full)).sum
        let total_actual_flex := (projection.map (fun r => r.flex_expenses_actual)).sum
        let lifetime_avg_multiplier :=
          if total_planned_flex > 0 then total_actual_flex / total_planned_flex else 1
        [.flexReduction lifetime_avg_multiplier reduced_years.length
          (reduced_years.headD dummyRow).age
          (reduced_years.getLastD dummyRow).age min_multiplier]
      else []
    else []
  else []

/-- The contribution-shortfall warning block of analyze_retirement_plan:
shortfall years are the rows whose contribution_shortfall exceeds the
100-dollar noise threshold; the warning fires only when the first such
row is still a working year. -/
def shortfallWarningBlock (projection : List YearRow) : List PlanWarning :=
  let shortfall_years := projection.filter (fun r => r.contribution_shortfall > 100)
  if shortfall_years.length > 0 then
    let first := shortfall_years.headD dummyRow
    let total_shortfall :=
      (shortfall_years.map (fun r => r.contribution_shortfall)).sum
    let avg_annual_shortfall := total_shortfall / (shortfall_years.length : ℚ)
    let monthly_shortfall := avg_annual_shortfall / 12
    if first.work_income > 0 then
      [.contributionShortfall first.year first.age monthly_shortfall
        total_shortfall shortfall_years.length]
    else []
  else []

/-- The early-withdrawal warning block of analyze_retirement_plan. -/
def earlyWithdrawalBlock (projection : List YearRow) : List PlanWarning :=
  let working_years := projection.filter (fun r => r.work_income > 0)
  if working_years.length > 0 then
    let total_working_withdrawals :=
      (working_years.map (fun r => r.total_withdrawals)).sum
    if total_working_withdrawals > 1000 then
      [.earlyWithdrawal total_working_withdrawals working_years.length]
    else []
  else []

/-- The conservative sustainable-withdrawal estimate (annual, monthly):
annuity payment over target_age - work_end_age years at 5.5 percent. -/
def sustainableWithdrawal (target_age : Int) (work_end_age : Option Int)
    (accounts : Option (List AccountBucket)) (current_age : Option Int) :
    Option ℚ × Option ℚ :=
  match work_end_age, accounts, current_age with
  | some w, some accs, some c =>
    let balance_at_retirement := calculate_conservative_retirement_balance accs c w
    let years_in_retirement := target_age - w
    let R : ℚ := 11/200
    if years_in_retirement > 0 ∧ balance_at_retirement > 0 then
      let annual := balance_at_retirement *
        (R * (1 + R) ^ years_in_retirement.toNat) /
        ((1 + R) ^ years_in_retirement.toNat - 1)
      (some annual, some (annual / 12))
    else (none, none)
  | _, _, _ => (none, none)

/-- The depletion warning appended while determining the AT RISK status. -/
def depletionWarningBlock (run_out_age : Option Int) (target_age : Int) :
    List PlanWarning :=
  match run_out_age with
  | none => []
  | some a => if a ≥ target_age then [] else [.depletion a (target_age - a)]

/-- analyze_retirement_plan: summary metrics and warnings derived from a
projection table. -/
def analyze_retirement_plan (projection : List YearRow) (target_age : Int := 90)
    (work_end_age : Option Int := none)
    (accounts : Option (List AccountBucket) := none)
    (current_age : Option Int := none) : AnalysisSummary :=
  if projection.isEmpty then
    { run_out_age := none, run_out_year := none, cushion_years := 0
      status := "AT RISK", warnings := [.noProjectionData], final_balance := 0
      sustainable_withdrawal_annual := none, sustainable_withdrawal_monthly := none }
  else
    let depleted := projection.filter (fun r => r.portfolio_depleted)
    let run_out_age : Option Int := (depleted.head?).map (fun r => r.age)
    let run_out_year : Option Int := (depleted.head?).map (fun r => r.year)
    let cushion_years :=
      match run_out_age with
      | none => (projection.getLastD dummyRow).age - target_age
      | some a => a - target_age
    let status :=
      match run_out_age with
      | none => "ON TRACK"
      | some a => if a ≥ target_age then "ON TRACK" else "AT RISK"
    let warnings := depletionWarningBlock run_out_age target_age ++
      flexWarningBlock projection status ++
      shortfallWarningBlock projection ++ earlyWithdrawalBlock projection
    let sustainable := sustainableWithdrawal target_age work_end_age accounts current_age
    { run_out_age := run_out_age, run_out_year := run_out_year
      cushion_years := cushion_years, status := status, warnings := warnings
      final_balance := (projection.getLastD dummyRow).total_portfolio
      sustainable_withdrawal_annual := sustainable.1
      sustainable_withdrawal_monthly := sustainable.2 }

/-! Section: Concrete scenarios used by claim theorems and witnesses -/

/-- The C6 scenario parameters: work income 60000, one 401k account with
a 10000 planned contribution, CORE 40000, FLEX 20000, max flex reduction
0.5 (a single projected year suffices for the first-year row). -/
def scenarioC6Params : ProjParams :=
  { current_age := 50, target_age := 90, current_work_income := 60000
    work_end_age := 65, ss_start_age := 99, ss_monthly_benefit := 0
    ss_cola := 0, max_flex_reduction := 1/2, inflation_rate := 0, max_age := 50 }

/-- The C6 scenario projection rows. -/
def scenarioC6Rows : List YearRow :=
  run_comprehensive_projection scenarioC6Params
    [{ name := "K", balance := 50000, annual_return := 7/100, priority := 1
       account_type := "401k", planned_contribution := 10000
       continue_post_retirement := false }]
    [{ name := "housing", annual_amount := 40000, category_type := "CORE" },
     { name := "travel", annual_amount := 20000, category_type := "FLEX" }]
    []

/-- The C2 counterexample parameters: a retiree with no income and no
expenses, one account holding 100. -/
def scenarioC2Params : ProjParams :=
  { current_age := 65, target_age := 90, current_work_income := 0
    work_end_age := 65, ss_start_age := 99, ss_monthly_benefit := 0
    ss_cola := 0, max_flex_reduction := 1/2, inflation_rate := 0, max_age := 110 }

/-- The C2 counterexample rows: a one-time event withdraws 200 from an
account holding only 100, leaving the emitted row with total portfolio
-100. -/
def scenarioC2Rows : List YearRow :=
  run_comprehensive_projection scenarioC2Params
    [{ name := "A", balance := 100, annual_return := 0, priority := 1
       account_type := "taxable_brokerage", planned_contribution := 0
       continue_post_retirement := false }]
    []
    [{ year := 2026, description := "roof", amount := 200, account_name := "A" }]

/-- A 2-row healthy run used by the C2 witness: same retiree, two
simulated years, no event. -/
def scenarioC2HealthyRows : List YearRow :=
  run_comprehensive_projection
    { scenarioC2Params with max_age := 66 }
    [{ name := "A", balance := 100, annual_return := 0, priority := 1
       account_type := "taxable_brokerage", planned_contribution := 0
       continue_post_retirement := false }]
    [] []

/-- Test whether a warning is the contribution-shortfall warning. -/
def isShortfallWarning : PlanWarning → Bool
  | .contributionShortfall _ _ _ _ _ => true
  | _ => false

/-- The contribution-shortfall warnings among a warning list. -/
def shortfallWarnings (ws : List PlanWarning) : List PlanWarning :=
  ws.filter isShortfallWarning

/-- Modelled from the claim wording of C3: the average monthly shortfall
computed over the shortfall years that occur while still working
(work_income positive in the row). -/
def claimedWorkingMonthlyShortfall (rows : List YearRow) : ℚ :=
  let wys := rows.filter
    (fun r => r.contribution_shortfall > 100 ∧ r.work_income > 0)
  ((wys.map (fun r => r.contribution_shortfall)).sum / (wys.length : ℚ)) / 12

/-- The C3 counterexample parameters: one final working year, then two
retired years, with a planned Roth contribution of 1000 that income can
never fully fund. -/
def scenarioC3Params : ProjParams :=
  { current_age := 60, target_age := 90, current_work_income := 600
    work_end_age := 61, ss_start_age := 99, ss_monthly_benefit := 0
    ss_cola := 0, max_flex_reduction := 1/2, inflation_rate := 0, max_age := 62 }

/-- The C3 counterexample rows: shortfalls of 400 (working, age 60) and
1000, 1000 (retired, ages 61 and 62). -/
def scenarioC3Rows : List YearRow :=
  run_comprehensive_projection scenarioC3Params
    [{ name := "R", balance := 10, annual_return := 0, priority := 1
       account_type := "roth_ira", planned_contribution := 1000
       continue_post_retirement := false }]
    [] []

/-- The hypothesis of claim C7: in every simulated year, total income
strictly exceeds core expenses plus full flex expenses plus that year's
total planned contributions. -/
def incomeExceedsExpensesEveryYear (p : ProjParams) (accounts : List AccountBucket)
    (expense_categories : List ExpenseCategory) : Prop :=
  ∀ k < (p.max_age - p.current_age + 1).toNat,
    totalIncomeAt p k >
      coreExpensesBase expense_categories * (1 + p.inflation_rate) ^ k +
      flexExpensesBase expense_categories * (1 + p.inflation_rate) ^ k +
      dictValuesSum (plannedContribs accounts (p.current_age + k) p.work_end_age)

/-- The C7 counterexample parameters: a 74-year-old with a small Social
Security income and no expenses, simulated for two years. -/
def scenarioC7Params : ProjParams :=
  { current_age := 74, target_age := 90, current_work_income := 0
    work_end_age := 74, ss_start_age := 74, ss_monthly_benefit := 100
    ss_cola := 0, max_flex_reduction := 1/2, inflation_rate := 0, max_age := 75 }

/-- The C7 counterexample accounts: a small traditional IRA (subject to
RMDs) and a large taxable account. -/
def scenarioC7Accounts : List AccountBucket :=
  [{ name := "I", balance := 100, annual_return := 0, priority := 1
     account_type := "traditional_ira", planned_contribution := 0
     continue_post_retirement := false },
   { name := "T", balance := 10000000, annual_return := 0, priority := 2
     account_type := "taxable_brokerage", planned_contribution := 0
     continue_post_retirement := false }]

/-- The C7 counterexample rows: a one-time event overdraws the IRA in the
first year; the resulting negative balance produces a negative RMD the
next year, which drives the cash position into deficit and forces a
portfolio withdrawal even though income always exceeds expenses. -/
def scenarioC7Rows : List YearRow :=
  run_comprehensive_projection scenarioC7Params scenarioC7Accounts []
    [{ year := 2026, description := "gift", amount := 100000, account_name := "I" }]

/-- Parameters of the C7 witness run: work income 100 for two simulated
years, no expenses, no events. -/
def scenarioC7WitnessParams : ProjParams :=
  { current_age := 65, target_age := 90, current_work_income := 100
    work_end_age := 67, ss_start_age := 99, ss_monthly_benefit := 0
    ss_cola := 0, max_flex_reduction := 1/2, inflation_rate := 0, max_age := 66 }

/-- The single account of the C7 witness run. -/
def scenarioC7WitnessAccounts : List AccountBucket :=
  [{ name := "T", balance := 10, annual_return := 0, priority := 1
     account_type := "taxable_brokerage", planned_contribution := 0
     continue_post_retirement := false }]

/-- The rows of the C7 witness run. -/
def scenarioC7WitnessRows : List YearRow :=
  run_comprehensive_projection scenarioC7WitnessParams scenarioC7WitnessAccounts [] []

/-- Modelled from the claim wording of C8: project each account's balance
forward from current_age to work_end_age, each year adding its planned
contribution when the account is eligible and then compounding at the
fixed conservative real rate 5.5 percent, ignoring living expenses; the
projected retirement balance is the sum over accounts. -/
def claimProjectedBalance (accounts : List AccountBucket)
    (current_age work_end_age : Int) : ℚ :=
  (accounts.map (fun acc =>
    (List.range (work_end_age - current_age).toNat).foldl
      (fun b (year_offset : ℕ) =>
        (b + (if can_contribute acc.account_type
              (current_age + (year_offset : Int))
            work_end_age acc.continue_post_retirement
          then acc.planned_contribution else 0)) * (1 + 11/200))
      acc.balance)).sum

/-! Section: Claim theorems -/

/-! Section: Claim C1 -/

/-- Claim C1: the code's actual behaviour at the failing input.  The
contribution stop rule for roth_ira (and taxable_brokerage) is None, and
the code returns True unconditionally for a None rule, so at age 70 with
work_end_age 65 and continue_post_retirement false the function still
allows contributions.  The spec (and the repository's own test suite,
which asserts can_contribute("roth_ira", 70, 65, False) == False) says
contributions must stop at work_end_age when the continue flag is off. -/
theorem C1_code_eval : can_contribute "roth_ira" 70 65 false = true := by
  with_unfolding_all rfl

/-! Section: Claim C5 -/

/-- Claim C5 counterexample: at age 65 with rmd_starting_age 60 the age is
below the table's lower bound (70), and the code divides by the default
divisor 2.0, not by the table's first entry 27.4 as the claim states. -/
theorem C5_counterexample :
    calculate_rmd_amount 100 65 60 = 50 ∧ (100 : ℚ) / (274/10) ≠ 50 := by
  constructor
  · with_unfolding_all rfl
  · with_unfolding_all decide

/-- Every age key of the RMD table lies between 70 and 120. -/
lemma rmd_table_keys_bounded :
    ∀ pr ∈ RMD_LIFETIME_TABLE, 70 ≤ pr.1 ∧ pr.1 ≤ 120 := by
  decide

/-- Claim C5 (amended): calculate_rmd_amount returns 0 below the starting
age and balance / divisor(age) otherwise, where any age missing from the
table (below 70 or above 120 alike) gets the default divisor 2.0; the
concrete values of the claim hold (246000 at age 75 gives exactly 10000,
and age 72 before starting age 73 gives 0). -/
theorem C5_amended :
    (∀ (b : ℚ) (age s : Int), age < s → calculate_rmd_amount b age s = 0) ∧
    (∀ (b : ℚ) (age s : Int), ¬ age < s →
      calculate_rmd_amount b age s = b / rmdDivisor age) ∧
    (∀ age : Int, age < 70 ∨ 120 < age → rmdDivisor age = 2) ∧
    calculate_rmd_amount 246000 75 73 = 10000 ∧
    (∀ b : ℚ, calculate_rmd_amount b 72 73 = 0) := by
  refine ⟨?_, ?_, ?_, ?_, ?_⟩
  · intro b age s h
    simp [calculate_rmd_amount, h]
  · intro b age s h
    simp [calculate_rmd_amount, h]
  · intro age h
    have hnone : RMD_LIFETIME_TABLE.find? (fun pr => pr.1 == age) = none := by
      rw [List.find?_eq_none]
      intro pr hpr
      have hb := rmd_table_keys_bounded pr hpr
      simp only [beq_iff_eq]
      rcases h with h | h <;> intro hEq <;> omega
    simp [rmdDivisor, hnone]
  · with_unfolding_all rfl
  · intro b
    simp [calculate_rmd_amount]

/-- Claim C5 amended witness: the amended theorem at concrete inputs. -/
theorem C5_amended_witness :
    calculate_rmd_amount 100 72 73 = 0 ∧
    calculate_rmd_amount 100 80 73 = 100 / rmdDivisor 80 ∧
    rmdDivisor 65 = 2 ∧ rmdDivisor 130 = 2 :=
  ⟨C5_amended.1 100 72 73 (by decide),
   C5_amended.2.1 100 80 73 (by decide),
   C5_amended.2.2.1 65 (Or.inl (by decide)),
   C5_amended.2.2.1 130 (Or.inr (by decide))⟩

/-! Section: Claim C6 -/

/-- Claim C6: with work income 60000, CORE 40000, full FLEX 20000, one
planned contribution of 10000 and max_flex_reduction 0.5, the engine
records flex_multiplier exactly 0.5, total_contributions 10000 and
total_withdrawals 0 in that year (contributions are funded by cutting
flex spending before any portfolio withdrawal). -/
theorem C6_scenario :
    (scenarioC6Rows.getD 0 dummyRow).flex_multiplier = 1/2 ∧
    (scenarioC6Rows.getD 0 dummyRow).total_contributions = 10000 ∧
    (scenarioC6Rows.getD 0 dummyRow).total_withdrawals = 0 := by
  refine ⟨?_, ?_, ?_⟩ <;> with_unfolding_all rfl

/-! Section: Claim C10 -/

/-- Claim C10: on an empty projection table, analyze_retirement_plan
returns the fixed degenerate summary: status AT RISK, the single warning
No projection data, null run-out fields, cushion 0, final balance 0, and
null sustainable-withdrawal fields. -/
theorem C10_empty_projection (target_age : Int) (work_end_age : Option Int)
    (accounts : Option (List AccountBucket)) (current_age : Option Int) :
    analyze_retirement_plan [] target_age work_end_age accounts current_age =
      { run_out_age := none, run_out_year := none, cushion_years := 0
        status := "AT RISK", warnings := [.noProjectionData], final_balance := 0
        sustainable_withdrawal_annual := none
        sustainable_withdrawal_monthly := none } := rfl

/-! Section: Claim C2 -/

/-- Claim C2 counterexample: with one account holding 100 and a one-time
event withdrawing 200 from it, the single emitted row (flagged depleted)
has total_portfolio = -100, a strictly negative emitted value, refuting
the claim that every emitted row has total portfolio at least 0. -/
theorem C2_counterexample :
    scenarioC2Rows.length = 1 ∧
    (scenarioC2Rows.getD 0 dummyRow).total_portfolio = -100 ∧
    (scenarioC2Rows.getD 0 dummyRow).portfolio_depleted = true := by
  refine ⟨?_, ?_, ?_⟩ <;> with_unfolding_all rfl

/-- The depletion flag of a produced row is the test whether its total
portfolio is at most 0. -/
lemma projYear_depleted_iff (p : ProjParams) (rmd_starting_age : Int)
    (core_expenses_base flex_expenses_base : ℚ)
    (sorted_accounts : List AccountBucket) (st : ProjState) (year_offset : ℕ) :
    ((projYear p rmd_starting_age core_expenses_base flex_expenses_base
        sorted_accounts st year_offset).1.portfolio_depleted = true) ↔
    ((projYear p rmd_starting_age core_expenses_base flex_expenses_base
        sorted_accounts st year_offset).1.total_portfolio ≤ 0) := by
  exact decide_eq_true_iff

/-- Loop invariant for C2: in the emitted row list, every row except the
last has strictly positive total portfolio, and a row flagged depleted
can only be the last row. -/
lemma projLoop_depletion_shape (p : ProjParams) (rmd_starting_age : Int)
    (core_expenses_base flex_expenses_base : ℚ)
    (sorted_accounts : List AccountBucket) :
    ∀ (fuel : ℕ) (st : ProjState) (year_offset : ℕ),
    (∀ i, i + 1 < (projLoop p rmd_starting_age core_expenses_base
        flex_expenses_base sorted_accounts st year_offset fuel).1.length →
      0 < ((projLoop p rmd_starting_age core_expenses_base flex_expenses_base
        sorted_accounts st year_offset fuel).1.getD i dummyRow).total_portfolio) ∧
    (∀ i, i < (projLoop p rmd_starting_age core_expenses_base
        flex_expenses_base sorted_accounts st year_offset fuel).1.length →
      ((projLoop p rmd_starting_age core_expenses_base flex_expenses_base
        sorted_accounts st year_offset fuel).1.getD i dummyRow).portfolio_depleted = true →
      i = (projLoop p rmd_starting_age core_expenses_base flex_expenses_base
        sorted_accounts st year_offset fuel).1.length - 1) := by
  intro fuel
  induction fuel with
  | zero =>
    intro st k
    constructor <;> intro i hi <;> simp [projLoop] at hi
  | succ n ih =>
    intro st k
    have hdep := projYear_depleted_iff p rmd_starting_age core_expenses_base
      flex_expenses_base sorted_accounts st k
    simp only [projLoop]
    split
    · constructor
      · intro i hi
        simp only [List.length_singleton] at hi
        omega
      · intro i hi _
        simp only [List.length_singleton] at hi ⊢
        omega
    · rename_i hnot
      have hpos : 0 < (projYear p rmd_starting_age core_expenses_base
          flex_expenses_base sorted_accounts st k).1.total_portfolio := by
        by_contra hle
        exact hnot (hdep.mpr (le_of_not_lt hle))
      have hrest := ih (projYear p rmd_starting_age core_expenses_base
        flex_expenses_base sorted_accounts st k).2 (k + 1)
      constructor
      · intro i hi
        cases i with
        | zero => simpa using hpos
        | succ j =>
          simp only [List.length_cons] at hi
          simpa using hrest.1 j (by omega)
      · intro i hi hflag
        cases i with
        | zero =>
          exact absurd (by simpa using hflag) hnot
        | succ j =>
          simp only [List.length_cons] at hi ⊢
          simp only [List.getD_cons_succ] at hflag
          have hj := hrest.2 j (by omega) hflag
          omega

/-- Claim C2 (amended): in every emitted table, every row except the
final one has strictly positive (hence nonnegative) total portfolio, and
a row with the depletion flag set is always the final row, after which no
further rows are emitted.  (The original claim that even the final row is
nonnegative fails: a one-time event can overdraw an account.) -/
theorem C2_amended (p : ProjParams) (accounts : List AccountBucket)
    (expense_categories : List ExpenseCategory) (events : List OneTimeEvent) :
    (∀ i, i + 1 <
        (run_comprehensive_projection p accounts expense_categories events).length →
      0 < ((run_comprehensive_projection p accounts expense_categories events).getD
        i dummyRow).total_portfolio) ∧
    (∀ i, i <
        (run_comprehensive_projection p accounts expense_categories events).length →
      ((run_comprehensive_projection p accounts expense_categories events).getD
        i dummyRow).portfolio_depleted = true →
      i = (run_comprehensive_projection p accounts expense_categories events).length - 1) := by
  exact projLoop_depletion_shape p
    (get_rmd_starting_age (baseYear - p.current_age))
    (coreExpensesBase expense_categories) (flexExpensesBase expense_categories)
    (sortByPriority accounts)
    ((p.max_age - p.current_age + 1).toNat)
    { accounts := accounts, expense_categories := expense_categories
      events := events
      account_balances :=
        accounts.foldl (fun d acc => dictSet d acc.name acc.balance) [] }
    0

/-- Claim C2 amended witness: the amended theorem applied to concrete
runs, discharging its index hypotheses there: a healthy 2-row run has a
strictly positive first row, and in the depleting counterexample run the
depleted row is the last one. -/
theorem C2_amended_witness :
    0 < (scenarioC2HealthyRows.getD 0 dummyRow).total_portfolio ∧
    (0 : ℕ) = scenarioC2Rows.length - 1 := by
  constructor
  · exact (C2_amended { scenarioC2Params with max_age := 66 }
      [{ name := "A", balance := 100, annual_return := 0, priority := 1
         account_type := "taxable_brokerage", planned_contribution := 0
         continue_post_retirement := false }] [] []).1 0
      (by with_unfolding_all decide)
  · exact (C2_amended scenarioC2Params
      [{ name := "A", balance := 100, annual_return := 0, priority := 1
         account_type := "taxable_brokerage", planned_contribution := 0
         continue_post_retirement := false }] []
      [{ year := 2026, description := "roof", amount := 200, account_name := "A" }]).2 0
      (by with_unfolding_all decide) (by with_unfolding_all rfl)

/-! Section: Claim C3 -/

/-- Filtering shortfall warnings distributes over list append. -/
lemma shortfallWarnings_append (a b : List PlanWarning) :
    shortfallWarnings (a ++ b) = shortfallWarnings a ++ shortfallWarnings b :=
  List.filter_append a b

/-- The depletion block contributes no shortfall warning. -/
lemma shortfallWarnings_depletionBlock (run_out_age : Option Int) (target_age : Int) :
    shortfallWarnings (depletionWarningBlock run_out_age target_age) = [] := by
  unfold depletionWarningBlock
  cases run_out_age with
  | none => rfl
  | some a =>
    dsimp only
    split_ifs <;> rfl

/-- The flex-reduction block contributes no shortfall warning. -/
lemma shortfallWarnings_flexBlock (rows : List YearRow) (status : String) :
    shortfallWarnings (flexWarningBlock rows status) = [] := by
  unfold flexWarningBlock
  dsimp only
  split_ifs <;> rfl

/-- The early-withdrawal block contributes no shortfall warning. -/
lemma shortfallWarnings_earlyBlock (rows : List YearRow) :
    shortfallWarnings (earlyWithdrawalBlock rows) = [] := by
  unfold earlyWithdrawalBlock
  dsimp only
  split_ifs <;> rfl

/-- The shortfall block consists of shortfall warnings only. -/
lemma shortfallWarnings_shortfallBlock (rows : List YearRow) :
    shortfallWarnings (shortfallWarningBlock rows) = shortfallWarningBlock rows := by
  unfold shortfallWarningBlock
  dsimp only
  split_ifs <;> rfl

/-- Claim C3 (amended): analyze_retirement_plan emits the
contribution-shortfall warning exactly when the shortfall-year list (rows
with contribution_shortfall above the 100-dollar noise threshold) is
nonempty and its FIRST row is still a working year (work_income positive);
the emitted warning reports that first row's year and age, and the average
monthly shortfall computed over ALL shortfall years, post-retirement ones
included (not only over the shortfall years that occur while still
working, as the original claim stated). -/
theorem C3_amended (rows : List YearRow) (target_age : Int)
    (work_end_age : Option Int) (accounts : Option (List AccountBucket))
    (current_age : Option Int) :
    shortfallWarnings (analyze_retirement_plan rows target_age work_end_age
        accounts current_age).warnings =
      (match rows.filter (fun r => r.contribution_shortfall > 100) with
       | [] => []
       | first :: rest =>
         if first.work_income > 0 then
           [PlanWarning.contributionShortfall first.year first.age
             ((((first :: rest).map (fun r => r.contribution_shortfall)).sum /
               (((first :: rest).length : ℕ) : ℚ)) / 12)
             (((first :: rest).map (fun r => r.contribution_shortfall)).sum)
             (first :: rest).length]
         else []) := by
  unfold analyze_retirement_plan
  by_cases hempty : rows.isEmpty
  · rw [if_pos hempty]
    have hnil : rows = [] := List.isEmpty_iff.mp hempty
    subst hnil
    rfl
  · rw [if_neg hempty]
    dsimp only
    rw [shortfallWarnings_append, shortfallWarnings_append, shortfallWarnings_append,
      shortfallWarnings_depletionBlock, shortfallWarnings_flexBlock,
      shortfallWarnings_earlyBlock, shortfallWarnings_shortfallBlock]
    simp only [List.nil_append, List.append_nil]
    unfold shortfallWarningBlock
    cases hsy : rows.filter (fun r => r.contribution_shortfall > 100) with
    | nil => rfl
    | cons first rest => simp

/-- Claim C3 counterexample: in the C3 scenario the warning is emitted
with average monthly shortfall 200/3 (the average over all three
shortfall years, 400 + 1000 + 1000 over 3 years, monthly), while the
average over the shortfall years that occur while still working (the
single 400 year) is 100/3 — so the reported number is not the
working-years average the claim describes. -/
theorem C3_counterexample :
    (analyze_retirement_plan scenarioC3Rows 90 none none none).warnings =
      [PlanWarning.contributionShortfall 2026 60 (200/3) 2400 3] ∧
    claimedWorkingMonthlyShortfall scenarioC3Rows = 100/3 ∧
    (200 : ℚ)/3 ≠ 100/3 := by
  refine ⟨?_, ?_, ?_⟩
  · with_unfolding_all rfl
  · with_unfolding_all rfl
  · with_unfolding_all decide

/-! Section: Claim C4 -/

/-- The funding waterfall keeps the flex multiplier between
1 - max_flex_reduction and 1, and pins it to exactly 1 when the full
FLEX amount is zero (nothing to reduce). -/
lemma fundContributions_multiplier_bounds (ti ce ff : ℚ)
    (planned : List (String × ℚ)) (tp mfr : ℚ)
    (h0 : 0 ≤ mfr) (h1 : mfr ≤ 1) :
    1 - mfr ≤ (fundContributions ti ce ff planned tp mfr).flex_multiplier ∧
    (fundContributions ti ce ff planned tp mfr).flex_multiplier ≤ 1 ∧
    (ff = 0 → (fundContributions ti ce ff planned tp mfr).flex_multiplier = 1) := by
  simp only [fundContributions]
  by_cases hA : ti - ce ≥ ff + tp
  · rw [if_pos hA]
    exact ⟨by first | linarith | (dsimp only; linarith), le_refl 1, fun _ => rfl⟩
  · rw [if_neg hA]
    by_cases hB : ti - ce ≥ tp
    · rw [if_pos hB]
      have hff : ff > 0 := by
        push_neg at hA
        linarith
      by_cases hsub : ti - ce - tp ≥ ff * (1 - mfr)
      · rw [if_pos hsub, if_pos hff]
        refine ⟨?_, ?_, fun hff0 => absurd hff0 (ne_of_gt hff)⟩
        · rw [le_div_iff hff]
          linarith [le_max_right (ti - ce - tp) (ff * (1 - mfr))]
        · rw [div_le_one hff]
          refine max_le (by first | linarith | (dsimp only; linarith)) ?_
          nlinarith [mul_nonneg (le_of_lt hff) h0]
      · rw [if_neg hsub]
        by_cases htp : tp > 0
        · rw [if_pos htp]
          exact ⟨le_refl _, by first | linarith | (dsimp only; linarith), fun hff0 => absurd hff0 (ne_of_gt hff)⟩
        · rw [if_neg htp]
          exact ⟨le_refl _, by first | linarith | (dsimp only; linarith), fun hff0 => absurd hff0 (ne_of_gt hff)⟩
    · rw [if_neg hB]
      by_cases hff : ff > 0
      · rw [if_pos hff]
        by_cases hC : ti - ce - ff * (1 - mfr) > 0 ∧ tp > 0
        · rw [if_pos hC]
          exact ⟨le_refl _, by first | linarith | (dsimp only; linarith), fun hff0 => absurd hff0 (ne_of_gt hff)⟩
        · rw [if_neg hC]
          exact ⟨le_refl _, by first | linarith | (dsimp only; linarith), fun hff0 => absurd hff0 (ne_of_gt hff)⟩
      · rw [if_neg hff]
        by_cases hC : ti - ce - ff * (1 - mfr) > 0 ∧ tp > 0
        · rw [if_pos hC]
          exact ⟨by first | linarith | (dsimp only; linarith), le_refl 1, fun _ => rfl⟩
        · rw [if_neg hC]
          exact ⟨by first | linarith | (dsimp only; linarith), le_refl 1, fun _ => rfl⟩

/-- Every row produced by one loop iteration satisfies the flex
multiplier bounds of C4. -/
lemma projYear_flex_multiplier_bounds (p : ProjParams) (rmd_starting_age : Int)
    (core_expenses_base flex_expenses_base : ℚ)
    (sorted_accounts : List AccountBucket) (st : ProjState) (year_offset : ℕ)
    (h0 : 0 ≤ p.max_flex_reduction) (h1 : p.max_flex_reduction ≤ 1) :
    1 - p.max_flex_reduction ≤ (projYear p rmd_starting_age core_expenses_base
        flex_expenses_base sorted_accounts st year_offset).1.flex_multiplier ∧
    (projYear p rmd_starting_age core_expenses_base flex_expenses_base
        sorted_accounts st year_offset).1.flex_multiplier ≤ 1 ∧
    ((projYear p rmd_starting_age core_expenses_base flex_expenses_base
        sorted_accounts st year_offset).1.flex_expenses_full = 0 →
      (projYear p rmd_starting_age core_expenses_base flex_expenses_base
        sorted_accounts st year_offset).1.flex_multiplier = 1) :=
  fundContributions_multiplier_bounds
    (workIncomeAt p year_offset + ssIncomeAt p year_offset)
    (core_expenses_base * (1 + p.inflation_rate) ^ year_offset)
    (flex_expenses_base * (1 + p.inflation_rate) ^ year_offset)
    (plannedContribs st.accounts (p.current_age + year_offset) p.work_end_age)
    (dictValuesSum (plannedContribs st.accounts (p.current_age + year_offset)
      p.work_end_age))
    p.max_flex_reduction h0 h1

/-- The default-valued head of a nonempty list is a member of it. -/
lemma headD_mem_of_ne_nil {α : Type} (l : List α) (d : α) (h : l ≠ []) :
    l.headD d ∈ l := by
  cases l with
  | nil => exact absurd rfl h
  | cons a t => exact List.mem_cons_self a t

/-- Any per-row property of projYear outputs holds for every emitted row. -/
lemma projLoop_rows_from_projYear (p : ProjParams) (rmd_starting_age : Int)
    (core_expenses_base flex_expenses_base : ℚ)
    (sorted_accounts : List AccountBucket) (P : YearRow → Prop)
    (h : ∀ st year_offset, P (projYear p rmd_starting_age core_expenses_base
      flex_expenses_base sorted_accounts st year_offset).1) :
    ∀ (fuel : ℕ) (st : ProjState) (year_offset : ℕ),
    ∀ row ∈ (projLoop p rmd_starting_age core_expenses_base flex_expenses_base
      sorted_accounts st year_offset fuel).1, P row := by
  intro fuel
  induction fuel with
  | zero => intro st k row hrow; simp [projLoop] at hrow
  | succ n ih =>
    intro st k row hrow
    simp only [projLoop] at hrow
    split at hrow
    · rcases List.mem_singleton.1 hrow with h0
      exact h0 ▸ h st k
    · rcases List.mem_cons.1 hrow with h0 | h0
      · exact h0 ▸ h st k
      · exact ih _ (k + 1) row h0

/-- Claim C4: whenever max_flex_reduction lies in 0..1, the recorded
flex_multiplier of every emitted row lies between 1 - max_flex_reduction
and 1, and a year whose full FLEX amount is zero records exactly 1 (the
division-by-zero guard). -/
theorem C4_flex_multiplier_bounds (p : ProjParams)
    (accounts : List AccountBucket) (expense_categories : List ExpenseCategory)
    (events : List OneTimeEvent)
    (h0 : 0 ≤ p.max_flex_reduction) (h1 : p.max_flex_reduction ≤ 1) :
    ∀ row ∈ run_comprehensive_projection p accounts expense_categories events,
      1 - p.max_flex_reduction ≤ row.flex_multiplier ∧
      row.flex_multiplier ≤ 1 ∧
      (row.flex_expenses_full = 0 → row.flex_multiplier = 1) :=
  projLoop_rows_from_projYear p
    (get_rmd_starting_age (baseYear - p.current_age))
    (coreExpensesBase expense_categories) (flexExpensesBase expense_categories)
    (sortByPriority accounts)
    (fun row => 1 - p.max_flex_reduction ≤ row.flex_multiplier ∧
      row.flex_multiplier ≤ 1 ∧
      (row.flex_expenses_full = 0 → row.flex_multiplier = 1))
    (fun st k => projYear_flex_multiplier_bounds p _ _ _ _ st k h0 h1)
    ((p.max_age - p.current_age + 1).toNat)
    { accounts := accounts, expense_categories := expense_categories
      events := events
      account_balances :=
        accounts.foldl (fun d acc => dictSet d acc.name acc.balance) [] }
    0

/-- Claim C4 witness: the bounds at the concrete C6 scenario row (where
the multiplier is 0.5 with max_flex_reduction 0.5). -/
theorem C4_flex_multiplier_bounds_witness :
    1 - scenarioC6Params.max_flex_reduction ≤
      (scenarioC6Rows.headD dummyRow).flex_multiplier ∧
    (scenarioC6Rows.headD dummyRow).flex_multiplier ≤ 1 ∧
    ((scenarioC6Rows.headD dummyRow).flex_expenses_full = 0 →
      (scenarioC6Rows.headD dummyRow).flex_multiplier = 1) :=
  C4_flex_multiplier_bounds scenarioC6Params
    [{ name := "K", balance := 50000, annual_return := 7/100, priority := 1
       account_type := "401k", planned_contribution := 10000
       continue_post_retirement := false }]
    [{ name := "housing", annual_amount := 40000, category_type := "CORE" },
     { name := "travel", annual_amount := 20000, category_type := "FLEX" }]
    []
    (by with_unfolding_all decide) (by with_unfolding_all decide)
    (scenarioC6Rows.headD dummyRow)
    (headD_mem_of_ne_nil _ _ (by with_unfolding_all decide))

/-! Section: Claim C7 -/

/-- One loop iteration only reassigns the internal balance map: the
accounts, expense categories and events components of the state are
returned untouched. -/
lemma projYear_preserves_inputs (p : ProjParams) (rmd_starting_age : Int)
    (core_expenses_base flex_expenses_base : ℚ)
    (sorted_accounts : List AccountBucket) (st : ProjState) (year_offset : ℕ) :
    ((projYear p rmd_starting_age core_expenses_base flex_expenses_base
        sorted_accounts st year_offset).2).accounts = st.accounts ∧
    ((projYear p rmd_starting_age core_expenses_base flex_expenses_base
        sorted_accounts st year_offset).2).expense_categories = st.expense_categories ∧
    ((projYear p rmd_starting_age core_expenses_base flex_expenses_base
        sorted_accounts st year_offset).2).events = st.events :=
  ⟨rfl, rfl, rfl⟩

/-- The whole loop preserves the accounts, expense categories and events
components of the state. -/
lemma projLoop_preserves_inputs (p : ProjParams) (rmd_starting_age : Int)
    (core_expenses_base flex_expenses_base : ℚ)
    (sorted_accounts : List AccountBucket) :
    ∀ (fuel : ℕ) (st : ProjState) (year_offset : ℕ),
    ((projLoop p rmd_starting_age core_expenses_base flex_expenses_base
        sorted_accounts st year_offset fuel).2).accounts = st.accounts ∧
    ((projLoop p rmd_starting_age core_expenses_base flex_expenses_base
        sorted_accounts st year_offset fuel).2).expense_categories = st.expense_categories ∧
    ((projLoop p rmd_starting_age core_expenses_base flex_expenses_base
        sorted_accounts st year_offset fuel).2).events = st.events := by
  intro fuel
  induction fuel with
  | zero => intro st k; exact ⟨rfl, rfl, rfl⟩
  | succ n ih =>
    intro st k
    have hy := projYear_preserves_inputs p rmd_starting_age core_expenses_base
      flex_expenses_base sorted_accounts st k
    have hr := ih (projYear p rmd_starting_age core_expenses_base
      flex_expenses_base sorted_accounts st k).2 (k + 1)
    simp only [projLoop]
    split
    · exact hy
    · exact ⟨hr.1.trans hy.1, hr.2.1.trans hy.2.1, hr.2.2.trans hy.2.2⟩


/-- dictSet preserves nonnegativity of all stored values when the new
value is nonnegative. -/
lemma dictSet_nonneg (d : List (String × ℚ)) (k : String) (v : ℚ)
    (hd : ∀ kv ∈ d, 0 ≤ kv.2) (hv : 0 ≤ v) :
    ∀ kv ∈ dictSet d k v, 0 ≤ kv.2 := by
  induction d with
  | nil =>
    intro kv hkv
    simp only [dictSet, List.mem_singleton] at hkv
    simpa [hkv]
  | cons hd0 tl ih =>
    intro kv hkv
    simp only [dictSet] at hkv
    split at hkv
    · rcases List.mem_cons.1 hkv with h | h
      · simpa [h]
      · exact hd kv (List.mem_cons_of_mem _ h)
    · rcases List.mem_cons.1 hkv with h | h
      · exact hd kv (h ▸ List.mem_cons_self _ _)
      · exact ih (fun kv2 hkv2 => hd kv2 (List.mem_cons_of_mem _ hkv2)) kv h

/-- dictGet of a dict with nonnegative values is nonnegative. -/
lemma dictGet_nonneg (d : List (String × ℚ)) (k : String)
    (hd : ∀ kv ∈ d, 0 ≤ kv.2) : 0 ≤ dictGet d k := by
  induction d with
  | nil => simp [dictGet]
  | cons hd0 tl ih =>
    simp only [dictGet]
    split
    · exact hd hd0 (List.mem_cons_self _ _)
    · exact ih (fun kv hkv => hd kv (List.mem_cons_of_mem _ hkv))

/-- Folding dictSet with values that are nonnegative whenever the dict is
nonnegative preserves nonnegativity. -/
lemma foldl_dictSet_nonneg {α : Type} (l : List α) (key : α → String)
    (val : α → List (String × ℚ) → ℚ)
    (hval : ∀ x ∈ l, ∀ d, (∀ kv ∈ d, 0 ≤ kv.2) → 0 ≤ val x d) :
    ∀ d0, (∀ kv ∈ d0, 0 ≤ kv.2) →
    ∀ kv ∈ l.foldl (fun d x => dictSet d (key x) (val x d)) d0, 0 ≤ kv.2 := by
  induction l with
  | nil => intro d0 h kv hkv; exact h kv hkv
  | cons x xs ih =>
    intro d0 h0 kv hkv
    simp only [List.foldl_cons] at hkv
    exact ih (fun y hy d hd => hval y (List.mem_cons_of_mem _ hy) d hd)
      (dictSet d0 (key x) (val x d0))
      (dictSet_nonneg _ _ _ h0 (hval x (List.mem_cons_self _ _) d0 h0)) kv hkv

/-- The planned-contribution dict has nonnegative values when every
planned contribution is nonnegative. -/
lemma plannedContribs_nonneg (accounts : List AccountBucket) (age work_end_age : Int)
    (h : ∀ acc ∈ accounts, 0 ≤ acc.planned_contribution) :
    ∀ kv ∈ plannedContribs accounts age work_end_age, 0 ≤ kv.2 := by
  unfold plannedContribs
  refine foldl_dictSet_nonneg accounts _ _ ?_ [] (by simp)
  intro acc hacc d _
  split
  · exact h acc hacc
  · exact le_refl 0

/-- Applying a dict of nonnegative contributions preserves balance
nonnegativity. -/
lemma applyContributions_nonneg (contributions balances : List (String × ℚ))
    (hc : ∀ kv ∈ contributions, 0 ≤ kv.2) (hb : ∀ kv ∈ balances, 0 ≤ kv.2) :
    ∀ kv ∈ applyContributions contributions balances, 0 ≤ kv.2 := by
  unfold applyContributions
  induction contributions generalizing balances with
  | nil => exact fun kv hkv => hb kv hkv
  | cons c cs ih =>
    intro kv hkv
    simp only [List.foldl_cons] at hkv
    refine ih (dictSet balances c.1 (dictGet balances c.1 + c.2))
      (fun kv2 hkv2 => hc kv2 (List.mem_cons_of_mem _ hkv2))
      (dictSet_nonneg _ _ _ hb ?_) kv hkv
    have h1 := dictGet_nonneg balances c.1 hb
    have h2 := hc c (List.mem_cons_self _ _)
    linarith

/-- The RMD divisor is always positive (every table entry is positive and
so is the default 2.0). -/
lemma rmdDivisor_pos (age : Int) : 0 < rmdDivisor age := by
  unfold rmdDivisor
  cases hfind : RMD_LIFETIME_TABLE.find? (fun pr => pr.1 == age) with
  | none => norm_num
  | some pr =>
    have hmem := List.mem_of_find?_eq_some hfind
    have hpos : ∀ q ∈ RMD_LIFETIME_TABLE, 0 < q.2 := by
      with_unfolding_all decide
    simpa using hpos pr hmem

/-- An RMD computed on a nonnegative balance is nonnegative. -/
lemma calculate_rmd_amount_nonneg (b : ℚ) (age rs : Int) (hb : 0 ≤ b) :
    0 ≤ calculate_rmd_amount b age rs := by
  unfold calculate_rmd_amount
  split
  · exact le_refl 0
  · exact div_nonneg hb (le_of_lt (rmdDivisor_pos age))

/-- The RMD pass keeps all balances nonnegative and accumulates a
nonnegative RMD total. -/
lemma applyRMDs_nonneg (accounts : List AccountBucket) (age rs : Int)
    (balances0 : List (String × ℚ)) (hb : ∀ kv ∈ balances0, 0 ≤ kv.2) :
    (∀ kv ∈ (applyRMDs accounts age rs balances0).balances, 0 ≤ kv.2) ∧
    0 ≤ (applyRMDs accounts age rs balances0).total_rmds := by
  unfold applyRMDs
  suffices h : ∀ (r : RMDResult), (∀ kv ∈ r.balances, 0 ≤ kv.2) → 0 ≤ r.total_rmds →
      (∀ kv ∈ (accounts.foldl (fun r acc =>
        if RMD_ACCOUNT_TYPES acc.account_type then
          { balances := dictSet r.balances acc.name
              (dictGet r.balances acc.name -
                min (calculate_rmd_amount (dictGet r.balances acc.name) age rs)
                  (dictGet r.balances acc.name))
            rmds := dictSet r.rmds acc.name
              (min (calculate_rmd_amount (dictGet r.balances acc.name) age rs)
                (dictGet r.balances acc.name))
            total_rmds := r.total_rmds +
              min (calculate_rmd_amount (dictGet r.balances acc.name) age rs)
                (dictGet r.balances acc.name) }
        else { r with rmds := dictSet r.rmds acc.name 0 }) r).balances, 0 ≤ kv.2) ∧
      0 ≤ (accounts.foldl (fun r acc =>
        if RMD_ACCOUNT_TYPES acc.account_type then
          { balances := dictSet r.balances acc.name
              (dictGet r.balances acc.name -
                min (calculate_rmd_amount (dictGet r.balances acc.name) age rs)
                  (dictGet r.balances acc.name))
            rmds := dictSet r.rmds acc.name
              (min (calculate_rmd_amount (dictGet r.balances acc.name) age rs)
                (dictGet r.balances acc.name))
            total_rmds := r.total_rmds +
              min (calculate_rmd_amount (dictGet r.balances acc.name) age rs)
                (dictGet r.balances acc.name) }
        else { r with rmds := dictSet r.rmds acc.name 0 }) r).total_rmds by
    exact h { balances := balances0, rmds := [], total_rmds := 0 } hb (le_refl 0)
  induction accounts with
  | nil => intro r h1 h2; exact ⟨h1, h2⟩
  | cons acc accs ih =>
    intro r h1 h2
    simp only [List.foldl_cons]
    split
    · refine ih _ ?_ ?_
      · intro kv hkv
        have hbal := dictGet_nonneg r.balances acc.name h1
        have hrmd := calculate_rmd_amount_nonneg _ age rs hbal
        refine dictSet_nonneg _ _ _ h1 ?_ kv hkv
        have hmin : min (calculate_rmd_amount (dictGet r.balances acc.name) age rs)
            (dictGet r.balances acc.name) ≤ dictGet r.balances acc.name :=
          min_le_right _ _
        linarith
      · have hbal := dictGet_nonneg r.balances acc.name h1
        have hrmd := calculate_rmd_amount_nonneg _ age rs hbal
        have hmin : 0 ≤ min (calculate_rmd_amount (dictGet r.balances acc.name) age rs)
            (dictGet r.balances acc.name) := le_min hrmd hbal
        dsimp only
        linarith
    · exact ih _ h1 h2

/-- The investment-return pass keeps balances nonnegative when every
annual return is at least -1 (a balance cannot lose more than itself). -/
lemma applyReturns_nonneg (accounts : List AccountBucket)
    (balances0 : List (String × ℚ))
    (hacc : ∀ acc ∈ accounts, -1 ≤ acc.annual_return)
    (hb : ∀ kv ∈ balances0, 0 ≤ kv.2) :
    ∀ kv ∈ (applyReturns accounts balances0).1, 0 ≤ kv.2 := by
  unfold applyReturns
  suffices h : ∀ (pr : List (String × ℚ) × List (String × ℚ)),
      (∀ kv ∈ pr.1, 0 ≤ kv.2) →
      ∀ kv ∈ (accounts.foldl (fun pr acc =>
        (dictSet pr.1 acc.name
          (dictGet pr.1 acc.name + dictGet pr.1 acc.name * acc.annual_return),
         dictSet pr.2 acc.name (dictGet pr.1 acc.name * acc.annual_return))) pr).1,
        0 ≤ kv.2 by
    exact h (balances0, []) hb
  induction accounts with
  | nil => intro pr h1 kv hkv; exact h1 kv hkv
  | cons acc accs ih =>
    intro pr h1 kv hkv
    simp only [List.foldl_cons] at hkv
    refine ih (fun a ha => hacc a (List.mem_cons_of_mem _ ha)) _ ?_ kv hkv
    intro kv2 hkv2
    refine dictSet_nonneg _ _ _ h1 ?_ kv2 hkv2
    have hg := dictGet_nonneg pr.1 acc.name h1
    have hr := hacc acc (List.mem_cons_self _ _)
    nlinarith

/-- The surplus branch of the funding waterfall: everything is funded in
full and no shortfall remains. -/
lemma fundContributions_surplus (ti ce ff : ℚ) (planned : List (String × ℚ))
    (tp mfr : ℚ) (h : ti - ce ≥ ff + tp) :
    fundContributions ti ce ff planned tp mfr =
      { flex_expenses_actual := ff, flex_multiplier := 1, contributions := planned
        total_contributions := tp, contribution_shortfall := 0 } := by
  simp only [fundContributions]
  rw [if_pos h]

/-- With no events, the event pass changes nothing. -/
lemma applyEvent_nil (year : Int) (balances : List (String × ℚ)) :
    applyEvent [] year balances = ((0, "", ""), balances) := rfl

/-- The C7 per-year step: when income strictly exceeds core plus full
flex plus planned contributions, and balances are nonnegative, the year
makes no deficit withdrawal and leaves all balances nonnegative (given
no events, nonnegative planned contributions and returns at least -1). -/
lemma projYear_no_withdrawals (p : ProjParams) (rmd_starting_age : Int)
    (core_expenses_base flex_expenses_base : ℚ)
    (sorted_accounts : List AccountBucket) (st : ProjState) (k : ℕ)
    (hev : st.events = [])
    (hacc : ∀ acc ∈ st.accounts, 0 ≤ acc.planned_contribution ∧ -1 ≤ acc.annual_return)
    (hbal : ∀ kv ∈ st.account_balances, 0 ≤ kv.2)
    (hinc : totalIncomeAt p k >
      core_expenses_base * (1 + p.inflation_rate) ^ k +
      flex_expenses_base * (1 + p.inflation_rate) ^ k +
      dictValuesSum (plannedContribs st.accounts (p.current_age + k) p.work_end_age)) :
    (projYear p rmd_starting_age core_expenses_base flex_expenses_base
        sorted_accounts st k).1.total_withdrawals = 0 ∧
    (∀ kv ∈ (projYear p rmd_starting_age core_expenses_base flex_expenses_base
        sorted_accounts st k).2.account_balances, 0 ≤ kv.2) := by
  have hinc' : workIncomeAt p k + ssIncomeAt p k >
      core_expenses_base * (1 + p.inflation_rate) ^ k +
      flex_expenses_base * (1 + p.inflation_rate) ^ k +
      dictValuesSum (plannedContribs st.accounts (p.current_age + k) p.work_end_age) := by
    unfold totalIncomeAt at hinc
    exact hinc
  have hplanned := plannedContribs_nonneg st.accounts (p.current_age + k)
    p.work_end_age (fun a ha => (hacc a ha).1)
  have hfr := fundContributions_surplus (workIncomeAt p k + ssIncomeAt p k)
    (core_expenses_base * (1 + p.inflation_rate) ^ k)
    (flex_expenses_base * (1 + p.inflation_rate) ^ k)
    (plannedContribs st.accounts (p.current_age + k) p.work_end_age)
    (dictValuesSum (plannedContribs st.accounts (p.current_age + k) p.work_end_age))
    p.max_flex_reduction (by linarith)
  have hbal1 := applyContributions_nonneg
    (plannedContribs st.accounts (p.current_age + k) p.work_end_age)
    st.account_balances hplanned hbal
  have hrmds := applyRMDs_nonneg st.accounts (p.current_age + k) rmd_starting_age
    (applyContributions
      (plannedContribs st.accounts (p.current_age + k) p.work_end_age)
      st.account_balances) hbal1
  simp only [projYear, hfr, hev, applyEvent_nil, gt_iff_lt, lt_self_iff_false,
    false_and, if_false]
  split_ifs with hs
  · exfalso
    have := hrmds.2
    linarith
  · refine ⟨rfl, ?_⟩
    exact applyReturns_nonneg st.accounts _ (fun a ha => (hacc a ha).2) hrmds.1

/-- The C7 loop invariant: with no events, nonnegative planned
contributions and balances, returns at least -1, and income strictly
above expenses plus planned contributions in every remaining year, every
emitted row has zero total withdrawals. -/
lemma projLoop_no_withdrawals (p : ProjParams) (rmd_starting_age : Int)
    (core_expenses_base flex_expenses_base : ℚ)
    (sorted_accounts accounts : List AccountBucket)
    (hacc : ∀ acc ∈ accounts, 0 ≤ acc.planned_contribution ∧ -1 ≤ acc.annual_return) :
    ∀ (fuel : ℕ) (st : ProjState) (k : ℕ),
      st.accounts = accounts → st.events = [] →
      (∀ kv ∈ st.account_balances, 0 ≤ kv.2) →
      (∀ j, j < fuel → totalIncomeAt p (k + j) >
        core_expenses_base * (1 + p.inflation_rate) ^ (k + j) +
        flex_expenses_base * (1 + p.inflation_rate) ^ (k + j) +
        dictValuesSum (plannedContribs accounts (p.current_age + (k + j))
          p.work_end_age)) →
      ∀ row ∈ (projLoop p rmd_starting_age core_expenses_base flex_expenses_base
        sorted_accounts st k fuel).1, row.total_withdrawals = 0 := by
  intro fuel
  induction fuel with
  | zero => intro st k _ _ _ _ row hrow; simp [projLoop] at hrow
  | succ n ih =>
    intro st k hA hE hB hinc row hrow
    have h0 := hinc 0 (Nat.succ_pos n)
    rw [Nat.add_zero] at h0
    rw [← hA] at h0
    have hy := projYear_no_withdrawals p rmd_starting_age core_expenses_base
      flex_expenses_base sorted_accounts st k hE
      (by rw [hA]; exact hacc) hB h0
    have hpres := projYear_preserves_inputs p rmd_starting_age core_expenses_base
      flex_expenses_base sorted_accounts st k
    simp only [projLoop] at hrow
    split at hrow
    · rcases List.mem_singleton.1 hrow with h
      exact h ▸ hy.1
    · rcases List.mem_cons.1 hrow with h | h
      · exact h ▸ hy.1
      · refine ih (projYear p rmd_starting_age core_expenses_base
          flex_expenses_base sorted_accounts st k).2 (k + 1)
          (hpres.1.trans hA) (hpres.2.2.trans hE) hy.2 ?_ row h
        intro j hj
        have hstep := hinc (j + 1) (by omega)
        have harith : k + (j + 1) = k + 1 + j := by omega
        rw [harith] at hstep
        have hcast : (p.current_age + ((k : ℤ) + ((j : ℤ) + 1)) : ℤ) =
            p.current_age + (((k : ℤ) + 1) + (j : ℤ)) := by ring
        have hcast2 : ((j + 1 : ℕ) : ℤ) = (j : ℤ) + 1 := by push_cast; ring
        have hcast3 : ((k + 1 : ℕ) : ℤ) = (k : ℤ) + 1 := by push_cast; ring
        rw [hcast2, hcast] at hstep
        rw [hcast3]
        exact hstep

/-- Claim C7 (amended): with no one-time events, nonnegative starting
balances and planned contributions, and per-account returns of at least
-1, if total income strictly exceeds core expenses plus full flex
expenses plus total planned contributions in every simulated year, then
total_withdrawals is exactly 0 in every emitted row.  (The original
claim, with events allowed, fails: an event can overdraw an RMD-subject
account, whose negative balance then produces a negative RMD that forces
a deficit withdrawal.) -/
theorem C7_amended (p : ProjParams) (accounts : List AccountBucket)
    (expense_categories : List ExpenseCategory)
    (hacc : ∀ acc ∈ accounts,
      0 ≤ acc.balance ∧ 0 ≤ acc.planned_contribution ∧ -1 ≤ acc.annual_return)
    (hinc : incomeExceedsExpensesEveryYear p accounts expense_categories) :
    ∀ row ∈ run_comprehensive_projection p accounts expense_categories [],
      row.total_withdrawals = 0 := by
  unfold incomeExceedsExpensesEveryYear at hinc
  simp only [run_comprehensive_projection, run_comprehensive_projection_full]
  refine projLoop_no_withdrawals p
    (get_rmd_starting_age (baseYear - p.current_age))
    (coreExpensesBase expense_categories) (flexExpensesBase expense_categories)
    (sortByPriority accounts) accounts
    (fun a ha => ⟨(hacc a ha).2.1, (hacc a ha).2.2⟩)
    ((p.max_age - p.current_age + 1).toNat)
    { accounts := accounts, expense_categories := expense_categories
      events := []
      account_balances :=
        accounts.foldl (fun d acc => dictSet d acc.name acc.balance) [] }
    0 rfl rfl ?_ ?_
  · exact foldl_dictSet_nonneg accounts (fun a => a.name) (fun a _ => a.balance)
      (fun a ha d _ => (hacc a ha).1) [] (by simp)
  · intro j hj
    have := hinc j hj
    simpa using this

/-- Claim C7 amended witness: the amended theorem applied to the concrete
two-year witness run, discharging its hypotheses there. -/
theorem C7_amended_witness :
    (scenarioC7WitnessRows.headD dummyRow).total_withdrawals = 0 :=
  C7_amended scenarioC7WitnessParams scenarioC7WitnessAccounts []
    (by with_unfolding_all decide)
    (by unfold incomeExceedsExpensesEveryYear; with_unfolding_all decide)
    (scenarioC7WitnessRows.headD dummyRow)
    (headD_mem_of_ne_nil _ _ (by with_unfolding_all decide))

/-- Claim C7 counterexample: in the concrete C7 scenario income strictly
exceeds core plus flex plus planned contributions in both simulated
years, yet the second emitted row records a nonzero total withdrawal
(5033900/51, about 98704), because the year-one event overdraws the IRA
and the resulting negative RMD forces deficit withdrawals. -/
theorem C7_counterexample :
    incomeExceedsExpensesEveryYear scenarioC7Params scenarioC7Accounts [] ∧
    (scenarioC7Rows.getD 1 dummyRow).total_withdrawals = 5033900/51 ∧
    ((5033900 : ℚ)/51 ≠ 0) ∧ scenarioC7Rows.length = 2 := by
  refine ⟨?_, ?_, ?_, ?_⟩
  · unfold incomeExceedsExpensesEveryYear
    with_unfolding_all decide
  · with_unfolding_all rfl
  · with_unfolding_all decide
  · with_unfolding_all rfl

/-! Section: Claim C8 -/

/-- Looking up an account's name in the association list mapped from an
account list with distinct names yields that account's value. -/
lemma dictGet_map_name (m : List AccountBucket)
    (hnd : (m.map (fun a => a.name)).Nodup) (g : AccountBucket → ℚ) :
    ∀ a ∈ m, dictGet (m.map (fun x => (x.name, g x))) a.name = g a := by
  induction m with
  | nil => intro a ha; simp at ha
  | cons b m' ih =>
    have hnd' : b.name ∉ m'.map (fun a => a.name) ∧
        (m'.map (fun a => a.name)).Nodup := by
      simp only [List.map_cons, List.nodup_cons] at hnd
      exact hnd
    intro a ha
    simp only [List.map_cons, dictGet]
    split
    next heq =>
      rcases List.mem_cons.1 ha with h | h
      · rw [h]
      · exfalso
        refine hnd'.1 ?_
        rw [beq_iff_eq.1 heq]
        exact List.mem_map_of_mem _ h
    next heq =>
      rcases List.mem_cons.1 ha with h | h
      · exact absurd (beq_iff_eq.2 (by rw [h])) heq
      · exact ih hnd'.2 a h

/-- Overwriting an account's name key in a mapped association list
rewrites exactly the entries carrying that name. -/
lemma dictSet_map_name (m : List AccountBucket)
    (hnd : (m.map (fun a => a.name)).Nodup) (g : AccountBucket → ℚ)
    (a0 : AccountBucket) (ha0 : a0 ∈ m) (v : ℚ) :
    dictSet (m.map (fun x => (x.name, g x))) a0.name v =
      m.map (fun x => (x.name, if x.name = a0.name then v else g x)) := by
  induction m with
  | nil => simp at ha0
  | cons b m' ih =>
    have hnd' : b.name ∉ m'.map (fun a => a.name) ∧
        (m'.map (fun a => a.name)).Nodup := by
      simp only [List.map_cons, List.nodup_cons] at hnd
      exact hnd
    simp only [List.map_cons, dictSet]
    split
    next heq =>
      have hbe : b.name = a0.name := beq_iff_eq.1 heq
      have htail : m'.map (fun x => (x.name, g x)) =
          m'.map (fun x => (x.name, if x.name = a0.name then v else g x)) := by
        refine List.map_congr_left ?_
        intro x hx
        have hxne : x.name ≠ a0.name := by
          intro hcontra
          refine hnd'.1 ?_
          rw [hbe, ← hcontra]
          exact List.mem_map_of_mem _ hx
        rw [if_neg hxne]
      rw [← htail, ← hbe, if_pos rfl]
    next heq =>
      have hne : b.name ≠ a0.name := fun h => heq (beq_iff_eq.2 h)
      have ha0' : a0 ∈ m' := by
        rcases List.mem_cons.1 ha0 with h | h
        · exact absurd (by rw [h]) hne
        · exact h
      rw [ih hnd'.2 ha0', if_neg hne]

/-- A name-keyed conditional-update fold over accounts, applied to the
mapped association list, acts pointwise on each account's value. -/
lemma foldl_setStep_map (m : List AccountBucket)
    (hnd : (m.map (fun a => a.name)).Nodup)
    (f : AccountBucket → ℚ → ℚ) (useSet : AccountBucket → Bool) :
    ∀ (todo : List AccountBucket) (g : AccountBucket → ℚ),
      (∀ x ∈ todo, x ∈ m) → ((todo.map (fun a => a.name)).Nodup) →
      todo.foldl (fun d acc => if useSet acc then
          dictSet d acc.name (f acc (dictGet d acc.name)) else d)
        (m.map (fun a => (a.name, g a))) =
      m.map (fun a => (a.name,
        if a.name ∈ todo.map (fun x => x.name) ∧ useSet a = true
        then f a (g a) else g a)) := by
  have hinj := List.inj_on_of_nodup_map hnd
  intro todo
  induction todo with
  | nil =>
    intro g _ _
    refine Eq.symm (List.map_congr_left ?_)
    intro a _
    simp
  | cons x rest ih =>
    intro g hsub hnodup
    have hx : x ∈ m := hsub x (List.mem_cons_self _ _)
    have hnodup' : x.name ∉ rest.map (fun a => a.name) ∧
        (rest.map (fun a => a.name)).Nodup := by
      simp only [List.map_cons, List.nodup_cons] at hnodup
      exact hnodup
    simp only [List.foldl_cons]
    by_cases hu : useSet x = true
    · rw [if_pos hu, dictGet_map_name m hnd g x hx,
        dictSet_map_name m hnd g x hx (f x (g x)),
        ih (fun a => if a.name = x.name then f x (g x) else g a)
          (fun y hy => hsub y (List.mem_cons_of_mem _ hy)) hnodup'.2]
      refine List.map_congr_left ?_
      intro a ha
      by_cases hax : a.name = x.name
      · have haeq : a = x := hinj ha hx hax
        have hnotrest : a.name ∉ rest.map (fun y => y.name) := by
          rw [hax]; exact hnodup'.1
        rw [if_pos hax, if_neg (by simp [hnotrest])]
        have hmem : a.name ∈ (x :: rest).map (fun y => y.name) := by
          simp [hax]
        rw [if_pos ⟨hmem, by rw [haeq]; exact hu⟩, haeq]
      · rw [if_neg hax]
        by_cases hrest : a.name ∈ rest.map (fun y => y.name) ∧ useSet a = true
        · rw [if_pos hrest, if_pos ⟨by simp [hrest.1], hrest.2⟩]
        · rw [if_neg hrest, if_neg (by
            intro hcontra
            refine hrest ⟨?_, hcontra.2⟩
            rcases (by simpa using hcontra.1 : a.name = x.name ∨
              a.name ∈ rest.map (fun y => y.name)) with h | h
            · exact absurd h hax
            · exact h)]
    · rw [if_neg hu,
        ih g (fun y hy => hsub y (List.mem_cons_of_mem _ hy)) hnodup'.2]
      refine List.map_congr_left ?_
      intro a ha
      by_cases hrest : a.name ∈ rest.map (fun y => y.name) ∧ useSet a = true
      · rw [if_pos hrest, if_pos ⟨by simp [hrest.1], hrest.2⟩]
      · rw [if_neg hrest, if_neg (by
          intro hcontra
          refine hrest ⟨?_, hcontra.2⟩
          rcases (by simpa using hcontra.1 : a.name = x.name ∨
            a.name ∈ rest.map (fun y => y.name)) with h | h
          · exact absurd (by rw [hinj ha hx h] at hcontra; exact hcontra.2) hu
          · exact h)]

/-- The contribution pass of the conservative projection acts per
account. -/
lemma contribFold_map (m : List AccountBucket)
    (hnd : (m.map (fun a => a.name)).Nodup) (age work_end_age : Int)
    (g : AccountBucket → ℚ) :
    m.foldl (fun b acc =>
        if can_contribute acc.account_type age work_end_age
            acc.continue_post_retirement then
          dictSet b acc.name (dictGet b acc.name + acc.planned_contribution)
        else b)
      (m.map (fun a => (a.name, g a))) =
    m.map (fun a => (a.name,
      g a + (if can_contribute a.account_type age work_end_age
          a.continue_post_retirement then a.planned_contribution else 0))) := by
  have h := foldl_setStep_map m hnd (fun acc v => v + acc.planned_contribution)
    (fun acc => can_contribute acc.account_type age work_end_age
      acc.continue_post_retirement) m g (fun x hx => hx) hnd
  refine h.trans (List.map_congr_left ?_)
  intro a ha
  by_cases he : can_contribute a.account_type age work_end_age
      a.continue_post_retirement = true
  · rw [if_pos ⟨List.mem_map_of_mem _ ha, he⟩, if_pos he]
  · rw [if_neg (fun hc => he hc.2), if_neg he, add_zero]

/-- The growth pass of the conservative projection acts per account. -/
lemma growthFold_map (m : List AccountBucket)
    (hnd : (m.map (fun a => a.name)).Nodup) (g : AccountBucket → ℚ) :
    m.foldl (fun b acc =>
        dictSet b acc.name (dictGet b acc.name * (1 + 11/200)))
      (m.map (fun a => (a.name, g a))) =
    m.map (fun a => (a.name, g a * (1 + 11/200))) := by
  have h := foldl_setStep_map m hnd (fun _ v => v * (1 + 11/200))
    (fun _ => true) m g (fun x hx => hx) hnd
  refine Eq.trans (by exact h) (List.map_congr_left ?_)
  intro a ha
  rw [if_pos ⟨List.mem_map_of_mem _ ha, rfl⟩]

/-- Writing a fresh key appends it at the end of the association list. -/
lemma dictSet_fresh (d : List (String × ℚ)) (k : String) (v : ℚ)
    (hk : ∀ kv ∈ d, kv.1 ≠ k) : dictSet d k v = d ++ [(k, v)] := by
  induction d with
  | nil => rfl
  | cons kv0 rest ih =>
    simp only [dictSet]
    rw [if_neg (by
      intro hcontra
      exact hk kv0 (List.mem_cons_self _ _) (beq_iff_eq.1 hcontra))]
    rw [ih (fun kv hkv => hk kv (List.mem_cons_of_mem _ hkv))]
    rfl

/-- Building the balance dict from accounts with distinct names yields
the mapped association list. -/
lemma buildBalances_map (m : List AccountBucket)
    (hnd : (m.map (fun a => a.name)).Nodup) :
    m.foldl (fun d acc => dictSet d acc.name acc.balance) [] =
      m.map (fun a => (a.name, a.balance)) := by
  suffices h : ∀ (todo : List AccountBucket) (d : List (String × ℚ)),
      (∀ kv ∈ d, ∀ x ∈ todo, kv.1 ≠ x.name) →
      ((todo.map (fun a => a.name)).Nodup) →
      todo.foldl (fun d acc => dictSet d acc.name acc.balance) d =
        d ++ todo.map (fun a => (a.name, a.balance)) by
    have := h m [] (by simp) hnd
    simpa using this
  intro todo
  induction todo with
  | nil => intro d _ _; simp
  | cons x rest ih =>
    intro d hd hnodup
    have hnodup' : x.name ∉ rest.map (fun a => a.name) ∧
        (rest.map (fun a => a.name)).Nodup := by
      simp only [List.map_cons, List.nodup_cons] at hnodup
      exact hnodup
    simp only [List.foldl_cons]
    rw [dictSet_fresh d x.name x.balance
      (fun kv hkv => hd kv hkv x (List.mem_cons_self _ _))]
    rw [ih (d ++ [(x.name, x.balance)]) ?_ hnodup'.2]
    · simp
    · intro kv hkv y hy
      rcases List.mem_append.1 hkv with h | h
      · exact hd kv h y (List.mem_cons_of_mem _ hy)
      · have : kv = (x.name, x.balance) := List.mem_singleton.1 h
        rw [this]
        intro hcontra
        refine hnodup'.1 ?_
        have hxy : x.name = y.name := hcontra
        rw [hxy]
        exact List.mem_map_of_mem _ hy

/-- The dict-based conservative projection of the source equals the
per-account projection described by the claim, provided account names
are distinct. -/
lemma conservative_eq_claim (accounts : List AccountBucket)
    (hnd : (accounts.map (fun a => a.name)).Nodup)
    (current_age work_end_age : Int) :
    calculate_conservative_retirement_balance accounts current_age work_end_age =
      claimProjectedBalance accounts current_age work_end_age := by
  simp only [calculate_conservative_retirement_balance, claimProjectedBalance]
  generalize (work_end_age - current_age).toNat = N
  have hmain : ∀ n : ℕ,
      (List.range n).foldl
        (fun balances (year_offset : ℕ) =>
          accounts.foldl
            (fun b acc => dictSet b acc.name (dictGet b acc.name * (1 + 11/200)))
            (accounts.foldl
              (fun b acc =>
                if can_contribute acc.account_type
                    (current_age + (year_offset : Int))
                    work_end_age acc.continue_post_retirement then
                  dictSet b acc.name
                    (dictGet b acc.name + acc.planned_contribution)
                else b)
              balances))
        (accounts.foldl (fun d acc => dictSet d acc.name acc.balance) []) =
      accounts.map (fun a => (a.name,
        (List.range n).foldl
          (fun b (year_offset : ℕ) =>
            (b + (if can_contribute a.account_type
                (current_age + (year_offset : Int))
                work_end_age a.continue_post_retirement
              then a.planned_contribution else 0)) * (1 + 11/200))
          a.balance)) := by
    intro n
    induction n with
    | zero =>
      simp only [List.range_zero, List.foldl_nil]
      exact buildBalances_map accounts hnd
    | succ j ihj =>
      rw [List.range_succ, List.foldl_append, ihj, List.foldl_cons, List.foldl_nil]
      rw [contribFold_map accounts hnd (current_age + (j : Int)) work_end_age]
      rw [growthFold_map accounts hnd]
      refine List.map_congr_left ?_
      intro a _
      rw [List.foldl_append]
      rfl
  rw [hmain N]
  simp only [dictValuesSum, List.map_map]
  rfl

/-- Claim C8: when work_end_age, accounts and current_age are all
provided, the projection table is nonempty, the retirement horizon
target_age - work_end_age is positive, and the conservatively projected
balance is positive, the analyzer's sustainable_withdrawal_annual equals
B times r(1+r)^n / ((1+r)^n - 1) with r = 0.055 and
n = target_age - work_end_age, where B projects each account's current
balance to work_end_age, adding its planned contribution in every
eligible year and compounding every account at r, ignoring living
expenses; the monthly figure is the annual one divided by 12.  (Account
names are assumed distinct, as the engine keys its balance dict by
name.) -/
theorem C8_sustainable_withdrawal (rows : List YearRow) (target_age : Int)
    (work_end_age current_age : Int) (accounts : List AccountBucket)
    (hnd : (accounts.map (fun a => a.name)).Nodup)
    (hrows : rows ≠ [])
    (hn : target_age - work_end_age > 0)
    (hB : claimProjectedBalance accounts current_age work_end_age > 0) :
    (analyze_retirement_plan rows target_age (some work_end_age)
        (some accounts) (some current_age)).sustainable_withdrawal_annual =
      some (claimProjectedBalance accounts current_age work_end_age *
        ((11/200) * (1 + 11/200) ^ (target_age - work_end_age).toNat) /
        ((1 + 11/200) ^ (target_age - work_end_age).toNat - 1)) ∧
    (analyze_retirement_plan rows target_age (some work_end_age)
        (some accounts) (some current_age)).sustainable_withdrawal_monthly =
      some (claimProjectedBalance accounts current_age work_end_age *
        ((11/200) * (1 + 11/200) ^ (target_age - work_end_age).toNat) /
        ((1 + 11/200) ^ (target_age - work_end_age).toNat - 1) / 12) := by
  have hbridge := conservative_eq_claim accounts hnd current_age work_end_age
  unfold analyze_retirement_plan
  rw [if_neg (by simpa [List.isEmpty_iff] using hrows)]
  dsimp only
  unfold sustainableWithdrawal
  dsimp only
  rw [hbridge, if_pos ⟨hn, hB⟩]
  exact ⟨rfl, rfl⟩

/-- Claim C8 witness: the theorem applied to a concrete nonempty
projection, one account with balance 10 at age 64 retiring at 65 with
target age 90, discharging every hypothesis concretely. -/
theorem C8_sustainable_withdrawal_witness :
    (analyze_retirement_plan scenarioC2HealthyRows 90 (some 65)
        (some scenarioC7WitnessAccounts) (some 64)).sustainable_withdrawal_annual =
      some (claimProjectedBalance scenarioC7WitnessAccounts 64 65 *
        ((11/200) * (1 + 11/200) ^ ((90 : Int) - 65).toNat) /
        ((1 + 11/200) ^ ((90 : Int) - 65).toNat - 1)) :=
  (C8_sustainable_withdrawal scenarioC2HealthyRows 90 65 64
    scenarioC7WitnessAccounts
    (by with_unfolding_all decide)
    (by with_unfolding_all decide)
    (by decide)
    (by with_unfolding_all decide)).1

/-! Section: Claim C9 -/

/-- Claim C9: a projection run never mutates its input records.  The
simulation state threads the account, expense-category and event lists
through every loop iteration unchanged (only the internal balance map,
initialized from the inputs, is reassigned), and the final state returns
each input list exactly as given. -/
theorem C9_inputs_not_mutated (p : ProjParams) (accounts : List AccountBucket)
    (expense_categories : List ExpenseCategory) (events : List OneTimeEvent) :
    ((run_comprehensive_projection_full p accounts expense_categories events).2).accounts
        = accounts ∧
    ((run_comprehensive_projection_full p accounts expense_categories events).2).expense_categories
        = expense_categories ∧
    ((run_comprehensive_projection_full p accounts expense_categories events).2).events
        = events := by
  have h := projLoop_preserves_inputs p
    (get_rmd_starting_age (baseYear - p.current_age))
    (coreExpensesBase expense_categories) (flexExpensesBase expense_categories)
    (sortByPriority accounts)
    ((p.max_age - p.current_age + 1).toNat)
    { accounts := accounts, expense_categories := expense_categories
      events := events
      account_balances :=
        accounts.foldl (fun d acc => dictSet d acc.name acc.balance) [] }
    0
  exact h

end Retire


